import Mathlib

/-!
# Entity validation, certificate authority and TLS set-up of the edge controller

Shallow embedding of `traffic_policy.go` (package `cce`): the traffic-policy
entity tree and its `Validate` methods; of `pki/ca.go`: the root certificate
authority; of `cmd/cce/main.go`: the choice of the orchestration mode and the
TLS configurations; and of `grpc/clients`: the conversion of traffic policies to
protobuf messages and the application lifecycle client.

Conventions of the embedding

* a Go `error` is an `Option String`: `none` is the nil error, `some m` is an
  error whose `Error()` text is `m`;
* a Go pointer field is an `Option`; `none` is the nil pointer;
* a Go `int` field is an `Int` (the validators only compare, never compute);
* functions of other packages that the validators call (`uuid.IsValid`,
  `net.ParseIP`, `net.ParseMAC`) are fields of an environment `Env`;
  `strconv.ParseInt` is written out, because one of the properties depends on
  which strings it accepts.
-/

namespace EdgeController

/-! ## External functions -/

/-- The functions of other packages called by the validators.

* `uuidIsValid s` is `uuid.IsValid(s)`;
* `parseIP s` is `net.ParseIP(s) != nil`;
* `parseMACErr s` is the error returned by `net.ParseMAC(s)`: `none` when the
  address parses, `some text` (the `Error()` text) when it does not. -/
structure Env where
  uuidIsValid : String → Bool
  parseIP : String → Bool
  parseMACErr : String → Option String

/-! ## `strconv.ParseInt(s, 10, 64)` -/

/-- The two kinds of `strconv.NumError`. -/
inductive NumError where
  | errSyntax
  | errRange
deriving DecidableEq, Repr

/-- The largest `uint64`. -/
def maxUint64 : Nat := 2 ^ 64 - 1

/-- The digit loop of `strconv.ParseUint(s, 10, 64)`: `n` is the accumulator.
A byte that is not `0`..`9` is a syntax error (a letter is a digit value of at
least 10, which is not below the base); an accumulator at or above
`maxUint64/10 + 1`, or a sum that wraps, is a range error, reported with the
value `maxUint64`. A character outside ASCII is encoded with bytes that are all
at least `0x80`, none of them a digit, so testing characters agrees with testing
bytes. -/
def parseUintLoop : List Char → Nat → Nat × Option NumError
  | [], n => (n, none)
  | c :: cs, n =>
    if '0' ≤ c ∧ c ≤ '9' then
      let d := c.toNat - '0'.toNat
      if n ≥ maxUint64 / 10 + 1 then (maxUint64, some NumError.errRange)
      else
        let n10 := n * 10
        let n1 := (n10 + d) % 2 ^ 64
        if n1 < n10 ∨ n1 > maxUint64 then (maxUint64, some NumError.errRange)
        else parseUintLoop cs n1
    else (0, some NumError.errSyntax)

/-- Go `strconv.ParseUint(s, 10, 64)` on the characters of `s`. -/
def parseUint (s : List Char) : Nat × Option NumError :=
  if s = [] then (0, some NumError.errSyntax) else parseUintLoop s 0

/-- Go `strconv.ParseInt(s, 10, 64)` on the characters of `s`: an optional
leading `+` or `-`, then `ParseUint`; a syntax error is returned at once, a
magnitude that does not fit `int64` is a range error. -/
def parseIntChars (s : List Char) : Int × Option NumError :=
  match s with
  | [] => (0, some NumError.errSyntax)
  | c :: rest =>
    let neg := decide (c = '-')
    let body := if c = '+' ∨ c = '-' then rest else s
    let r := parseUint body
    if r.2 = some NumError.errSyntax then (0, some NumError.errSyntax)
    else
      let un := r.1
      let cutoff : Nat := 2 ^ 63
      if neg = false ∧ un ≥ cutoff then ((cutoff : Int) - 1, some NumError.errRange)
      else if neg = true ∧ un > cutoff then (-(cutoff : Int), some NumError.errRange)
      else ((if neg then -(un : Int) else (un : Int)), none)

/-- Go `strconv.ParseInt(s, 10, 64)`. -/
def parseInt (s : String) : Int × Option NumError :=
  parseIntChars s.toList

/-! ## Entities -/

/-- Go `MACFilter`. -/
structure MACFilter where
  MACAddresses : List String
deriving DecidableEq, Repr

/-- Go `IPFilter`. -/
structure IPFilter where
  Address : String
  Mask : Int
  BeginPort : Int
  EndPort : Int
  Protocol : String
deriving DecidableEq, Repr

/-- Go `GTPFilter`. -/
structure GTPFilter where
  Address : String
  Mask : Int
  IMSIs : List String
deriving DecidableEq, Repr

/-- Go `MACModifier`. -/
structure MACModifier where
  MACAddress : String
deriving DecidableEq, Repr

/-- Go `IPModifier`. -/
structure IPModifier where
  Address : String
  Port : Int
deriving DecidableEq, Repr

/-- Go `TrafficSelector`. -/
structure TrafficSelector where
  Description : String
  MACs : Option MACFilter
  IP : Option IPFilter
  GTP : Option GTPFilter
deriving DecidableEq, Repr

/-- Go `TrafficTarget`. -/
structure TrafficTarget where
  Description : String
  Action : String
  MAC : Option MACModifier
  IP : Option IPModifier
deriving DecidableEq, Repr

/-- Go `TrafficRule`. -/
structure TrafficRule where
  Description : String
  Priority : Int
  Source : Option TrafficSelector
  Destination : Option TrafficSelector
  Target : Option TrafficTarget
deriving DecidableEq, Repr

/-- Go `TrafficPolicy`; `Rules` is a slice of pointers, so an entry may be
nil (`none`). -/
structure TrafficPolicy where
  ID : String
  Name : String
  Rules : List (Option TrafficRule)
deriving DecidableEq, Repr

/-- How a call ends: it returns a value, or it panics (nil dereference). -/
inductive Run (α : Type) where
  | ret (a : α)
  | panic
deriving DecidableEq, Repr

/-! ## Validators -/

/-- The loop of `MACFilter.Validate`, at index `i`. -/
def MACFilter.validateFrom (env : Env) : List String → Nat → Option String
  | [], _ => none
  | mac :: rest, i =>
    match env.parseMACErr mac with
    | some e =>
      some ("mac_addresses[" ++ toString i ++ "] could not be parsed (" ++ e ++ ")")
    | none => MACFilter.validateFrom env rest (i + 1)

/-- Go `(*MACFilter).Validate`. -/
def MACFilter.Validate (env : Env) (f : MACFilter) : Option String :=
  MACFilter.validateFrom env f.MACAddresses 0

/-- Go `(*IPFilter).Validate`. -/
def IPFilter.Validate (env : Env) (f : IPFilter) : Option String :=
  if env.parseIP f.Address = false then some "address could not be parsed"
  else if f.Mask < 0 ∨ f.Mask > 128 then some "mask must be in [0..128]"
  else if f.BeginPort < 0 ∨ f.BeginPort > 65535 then
    some "begin_port must be in [0..65535]"
  else if f.EndPort < 0 ∨ f.EndPort > 65535 then
    some "end_port must be in [0..65535]"
  else if f.BeginPort > f.EndPort then some "begin_port must be <= end_port"
  else if f.Protocol = "tcp" ∨ f.Protocol = "udp" ∨ f.Protocol = "icmp"
      ∨ f.Protocol = "sctp" ∨ f.Protocol = "all" then none
  else some "protocol must be one of [tcp, udp, icmp, sctp, all]"

/-- The loop over `f.IMSIs` of `GTPFilter.Validate`, at index `i`; `len(imsi)`
is the number of bytes of the string. -/
def GTPFilter.validateIMSIsFrom : List String → Nat → Option String
  | [], _ => none
  | imsi :: rest, i =>
    if (parseInt imsi).2 ≠ none then
      some ("imsis[" ++ toString i ++ "] must be 14 or 15 digits")
    else if imsi.utf8ByteSize = 14 ∨ imsi.utf8ByteSize = 15 then
      GTPFilter.validateIMSIsFrom rest (i + 1)
    else some ("imsis[" ++ toString i ++ "] must be 14 or 15 digits")

/-- Go `(*GTPFilter).Validate`. -/
def GTPFilter.Validate (env : Env) (f : GTPFilter) : Option String :=
  if f.Address = "" then some "address cannot be empty"
  else if env.parseIP f.Address = false then some "address could not be parsed"
  else if f.Mask < 0 ∨ f.Mask > 128 then some "mask must be in [0..128]"
  else GTPFilter.validateIMSIsFrom f.IMSIs 0

/-- Go `(*MACModifier).Validate`. -/
def MACModifier.Validate (env : Env) (m : MACModifier) : Option String :=
  match env.parseMACErr m.MACAddress with
  | some e => some ("mac_address could not be parsed (" ++ e ++ ")")
  | none => none

/-- Go `(*IPModifier).Validate`. -/
def IPModifier.Validate (env : Env) (m : IPModifier) : Option String :=
  if env.parseIP m.Address = false then some "address could not be parsed"
  else if m.Port < 1 ∨ m.Port > 65535 then some "port must be in [1..65535]"
  else none

/-- One guarded step `if p != nil { if err := p.Validate(); err != nil { return
fmt.Errorf("<field>.%s", err.Error()) } }`: the error to return, if any. -/
def nested (field : String) (r : Option (Option String)) : Option String :=
  match r with
  | some (some e) => some (field ++ "." ++ e)
  | _ => none

/-- Go `(*TrafficSelector).Validate`. -/
def TrafficSelector.Validate (env : Env) (ts : TrafficSelector) : Option String :=
  if ts.MACs = none ∧ ts.IP = none ∧ ts.GTP = none then
    some "mac_filter|ip_filter|gtp_filter cannot all be nil"
  else
    match nested "mac_filter" (ts.MACs.map (MACFilter.Validate env)) with
    | some e => some e
    | none =>
      match nested "ip_filter" (ts.IP.map (IPFilter.Validate env)) with
      | some e => some e
      | none => nested "gtp_filter" (ts.GTP.map (GTPFilter.Validate env))

/-- Go `(*TrafficTarget).Validate`. -/
def TrafficTarget.Validate (env : Env) (tt : TrafficTarget) : Option String :=
  if tt.Action = "accept" ∨ tt.Action = "reject" ∨ tt.Action = "drop" then
    match nested "mac_modifier" (tt.MAC.map (MACModifier.Validate env)) with
    | some e => some e
    | none => nested "ip_modifier" (tt.IP.map (IPModifier.Validate env))
  else some "action must be one of [accept, reject, drop]"

/-- Go `(*TrafficRule).Validate`. -/
def TrafficRule.Validate (env : Env) (tr : TrafficRule) : Option String :=
  if tr.Priority < 1 ∨ tr.Priority > 65535 then
    some "priority must be in [1..65535]"
  else if tr.Source = none ∧ tr.Destination = none then
    some "source & destination cannot both be empty"
  else
    match nested "source" (tr.Source.map (TrafficSelector.Validate env)) with
    | some e => some e
    | none =>
      match nested "destination"
          (tr.Destination.map (TrafficSelector.Validate env)) with
      | some e => some e
      | none =>
        match tr.Target with
        | none => some "target cannot be empty"
        | some tt =>
          match TrafficTarget.Validate env tt with
          | some e => some ("target." ++ e)
          | none => none

/-- The loop over `tp.Rules` of `TrafficPolicy.Validate`, at index `i`; calling
`Validate` on a nil rule dereferences it. -/
def TrafficPolicy.validateRulesFrom (env : Env) :
    List (Option TrafficRule) → Nat → Run (Option String)
  | [], _ => Run.ret none
  | none :: _, _ => Run.panic
  | some rule :: rest, i =>
    match TrafficRule.Validate env rule with
    | some e => Run.ret (some ("rules[" ++ toString i ++ "]." ++ e))
    | none => TrafficPolicy.validateRulesFrom env rest (i + 1)

/-- Go `(*TrafficPolicy).Validate`. -/
def TrafficPolicy.Validate (env : Env) (tp : TrafficPolicy) : Run (Option String) :=
  if env.uuidIsValid tp.ID = false then Run.ret (some "id not a valid uuid")
  else if tp.Name = "" then Run.ret (some "name cannot be empty")
  else if tp.Rules.length = 0 then Run.ret (some "rules cannot be empty")
  else TrafficPolicy.validateRulesFrom env tp.Rules 0

/-! ## Matching an error path -/

/-- Strip the literal `lit` from the front of the input, if it is there. -/
def stripLit : List Char → List Char → Option (List Char)
  | [], cs => some cs
  | _ :: _, [] => none
  | p :: ps, c :: cs => if p = c then stripLit ps cs else none

/-- A match of the regular expression
`rules\[\d+\]\.(source|destination|target)\..*` that starts at the head of the
input: the literal `rules[`, one or more decimal digits, then `].`, one of the
three words, and a dot; `.*` accepts whatever follows. -/
def matchRulePathHere (cs : List Char) : Bool :=
  match stripLit "rules[".toList cs with
  | none => false
  | some r =>
    let ds := r.takeWhile Char.isDigit
    let r2 := r.dropWhile Char.isDigit
    !ds.isEmpty &&
      (["].source.", "].destination.", "].target."].any fun k =>
        (stripLit k.toList r2).isSome)

/-- The message contains a match of
`rules\[\d+\]\.(source|destination|target)\..*` (an unanchored search, as
`regexp.MatchString` does). -/
def matchesRulePath (s : String) : Bool :=
  s.toList.tails.any matchRulePathHere

/-! ## A concrete environment -/

/-- A finite stand-in for the external functions, for evaluating the validators
on concrete inputs. It accepts the identifier, the IP addresses and the MAC
addresses listed here, all taken from the fixture of `traffic_policy_test.go`
and all accepted by the real functions, and rejects every other string, a MAC
address with the error text of `net.ParseMAC`. Concrete evaluations below only
use it on the listed literals and on strings the real functions reject too. -/
def fixtureEnv : Env where
  uuidIsValid := fun s => decide (s = "9d740cee-035f-4076-847c-d1c80cdf19db")
  parseIP := fun s =>
    decide (s ∈ ["223.1.1.0", "10.6.7.2", "64.1.1.0", "108.6.7.2", "123.2.3.4"])
  parseMACErr := fun s =>
    if s ∈ ["F0-59-8E-7B-36-8A", "23-20-8E-15-89-D1", "35-A4-38-73-35-45",
        "7D-C2-3A-1C-63-D9", "E9-6B-D1-D2-1A-6B", "C8-32-A9-43-85-55",
        "C7-5A-E7-98-1B-A3"] then none
    else some ("address " ++ s ++ ": invalid MAC address")

/-- The source selector of the first rule of the test fixture. -/
def fixtureSource : TrafficSelector :=
  { Description := "test-source-1",
    MACs := some { MACAddresses :=
      ["F0-59-8E-7B-36-8A", "23-20-8E-15-89-D1", "35-A4-38-73-35-45"] },
    IP := some { Address := "223.1.1.0", Mask := 16, BeginPort := 2000,
                 EndPort := 2012, Protocol := "tcp" },
    GTP := some { Address := "10.6.7.2", Mask := 12, IMSIs :=
      ["310150123456789", "310150123456790", "310150123456791"] } }

/-- The destination selector of the first rule of the test fixture. -/
def fixtureDestination : TrafficSelector :=
  { Description := "test-destination-1",
    MACs := some { MACAddresses :=
      ["7D-C2-3A-1C-63-D9", "E9-6B-D1-D2-1A-6B", "C8-32-A9-43-85-55"] },
    IP := some { Address := "64.1.1.0", Mask := 16, BeginPort := 1000,
                 EndPort := 1012, Protocol := "tcp" },
    GTP := some { Address := "108.6.7.2", Mask := 4, IMSIs :=
      ["310150123456792", "310150123456793", "310150123456794"] } }

/-- The target of the first rule of the test fixture. -/
def fixtureTarget : TrafficTarget :=
  { Description := "test-target-1", Action := "accept",
    MAC := some { MACAddress := "C7-5A-E7-98-1B-A3" },
    IP := some { Address := "123.2.3.4", Port := 1600 } }

/-- The first rule of the test fixture. -/
def fixtureRule : TrafficRule :=
  { Description := "test-rule-1", Priority := 1, Source := some fixtureSource,
    Destination := some fixtureDestination, Target := some fixtureTarget }

/-- The test fixture, cut down to its first rule. -/
def fixturePolicy : TrafficPolicy :=
  { ID := "9d740cee-035f-4076-847c-d1c80cdf19db", Name := "policy-1",
    Rules := [some fixtureRule] }

/-- The fixture with `rules[0].source.ip_filter.begin_port = -1`, as in the
test suite. -/
def fixtureBadPortPolicy : TrafficPolicy :=
  { fixturePolicy with
    Rules := [some { fixtureRule with
      Source := some { fixtureSource with
        IP := some { Address := "223.1.1.0", Mask := 16, BeginPort := -1,
                     EndPort := 2012, Protocol := "tcp" } } }] }

/-! ## The certificate authority (`pki/ca.go`)

The authority reads and writes two files, draws random numbers, reads the clock
and calls `crypto/x509`. The files are the fields of a `World`; the outcome of
every other external call is a field of `Sys`, indexed by the number of external
calls made so far (`World.tick`) where the call is not a function of its
arguments alone. -/

/-- A byte string. -/
abbrev Bytes := List Nat

/-- A public key; keys are told apart by `id`. -/
structure PublicKey where
  id : Nat
deriving DecidableEq, Repr

/-- A `crypto.PrivateKey`, which is an empty interface: a value that implements
`crypto.Signer`, with the public key that `Public()` returns, or a value of
some other Go type, with the name `%T` prints for it. -/
inductive PrivateKey where
  | signer (pub : PublicKey)
  | other (goType : String)
deriving DecidableEq, Repr

/-- The values of `x509.ExtKeyUsage` that the authority uses. -/
inductive ExtKeyUsage where
  | any
  | serverAuth
  | clientAuth
deriving DecidableEq, Repr

/-- Go `x509.KeyUsageDigitalSignature`. -/
def keyUsageDigitalSignature : Nat := 1

/-- Go `x509.KeyUsageCertSign`. -/
def keyUsageCertSign : Nat := 32

/-- Go `time.Second`, in nanoseconds. -/
def second : Int := 1000000000

/-- Go `time.Hour`, in nanoseconds. -/
def hour : Int := 3600 * second

/-- Go `pkix.Name`, with the two fields the authority sets. -/
structure PkixName where
  CommonName : String := ""
  Organization : List String := []
deriving DecidableEq, Repr

/-- Go `x509.Certificate`, with the fields the authority reads or sets; a field
left out of a composite literal has its zero value. Times are nanoseconds since
the epoch. -/
structure Certificate where
  Raw : Bytes := []
  RawSubjectPublicKeyInfo : Bytes := []
  SerialNumber : Int := 0
  Subject : PkixName := {}
  NotBefore : Int := 0
  NotAfter : Int := 0
  KeyUsage : Nat := 0
  ExtKeyUsage : List ExtKeyUsage := []
  BasicConstraintsValid : Bool := false
  IsCA : Bool := false
  MaxPathLen : Int := 0
  MaxPathLenZero : Bool := false
deriving DecidableEq, Repr

/-- Go `pki.RootCA`. -/
structure RootCA where
  Cert : Option Certificate
  Key : PrivateKey
deriving DecidableEq, Repr

/-- How a call of a function of `package main` or `package pki` ends: it returns,
it ends the process with `os.Exit(code)`, or it panics. -/
inductive Proc (α : Type) where
  | ret (a : α)
  | exit (code : Int)
  | panic
deriving DecidableEq, Repr

/-- The outcome of `StoreCertificate(certFile, cert)`. -/
inductive StoreOutcome where
  | stored
  | failed (err : String)
  | panicked
deriving DecidableEq, Repr

/-- The external calls of the authority and of the TLS set-up.

* `mkdirAllErr t`: the error of `os.MkdirAll(certsDir, 0700)`;
* `generateKey t`: `ecdsa.GenerateKey(elliptic.P384(), rand.Reader)`, the public
  half of the new key (an `*ecdsa.PrivateKey` is a `crypto.Signer`) or an error;
* `storeKeyErr t`: the error of `StoreKey(key, keyFile)`;
* `storeCertificate t cert`: the outcome of `StoreCertificate(certFile, cert)`;
* `removeErr t`: the error of `os.Remove(certFile)`;
* `now t`: `time.Now()`, in nanoseconds since the epoch;
* `randUint64 seed`: `rdm.New(rdm.NewSource(seed)).Uint64()`;
* `createCertificate t template parent pub priv`:
  `x509.CreateCertificate(rand.Reader, template, parent, pub, priv)`;
* `parseCertificate der`: `x509.ParseCertificate(der)`;
* `marshalPKIXPublicKey pub`: `x509.MarshalPKIXPublicKey(pub)`. -/
structure Sys where
  mkdirAllErr : Nat → Option String
  generateKey : Nat → Except String PublicKey
  storeKeyErr : Nat → Option String
  storeCertificate : Nat → Option Certificate → StoreOutcome
  removeErr : Nat → Option String
  now : Nat → Int
  randUint64 : Int → Nat
  createCertificate :
    Nat → Certificate → Certificate → PublicKey → PrivateKey → Except String Bytes
  parseCertificate : Bytes → Except String Certificate
  marshalPKIXPublicKey : PublicKey → Except String Bytes

/-- Modelled from the spec: `LoadKey`, `StoreKey`, `LoadCertificate` and
`StoreCertificate` of `package pki` are not among the sources; the spec has them
load and persist `key.pem` and `cert.pem`. The two files behave as a store:
`keyFile` is the key `LoadKey(keyFile)` returns (`none`: the file is missing or
does not parse, and `LoadKey` fails), `certFile` likewise for
`LoadCertificate(certFile)`; a store that succeeds replaces the content, and
`os.Remove` that succeeds empties it. `tick` counts the external calls made. -/
structure World where
  keyFile : Option PrivateKey
  certFile : Option Certificate
  tick : Nat
deriving DecidableEq, Repr

/-- The world after `n` more external calls. -/
def World.advance (w : World) (n : Nat) : World :=
  { w with tick := w.tick + n }

/-- Go `errors.Wrap(err, msg)` of `github.com/pkg/errors`: nil for a nil `err`,
otherwise an error that reads `msg: err`. -/
def wrap (err : Option String) (msg : String) : Option String :=
  match err with
  | none => none
  | some e => some (msg ++ ": " ++ e)

/-- Go `int64(u)` for a `uint64` value `u`. -/
def toInt64 (u : Nat) : Int :=
  if u % 2 ^ 64 < 2 ^ 63 then ((u % 2 ^ 64 : Nat) : Int)
  else ((u % 2 ^ 64 : Nat) : Int) - 2 ^ 64

/-- The serial number picked by `SignCSR`, `newTLSCert` and `generateRootCA`:
`big.NewInt(int64(rdm.New(rdm.NewSource(time.Now().UnixNano())).Uint64()))`, with
`time.Now()` read at tick `t`. -/
def pickSerial (sys : Sys) (t : Nat) : Int :=
  toInt64 (sys.randUint64 (sys.now t))

/-- A returned pair `(cert, err)` of `x509.ParseCertificate`. -/
def certResult (r : Except String Certificate) : Option Certificate × Option String :=
  match r with
  | Except.ok c => (some c, none)
  | Except.error e => (none, some e)

/-- The template that `generateRootCA` fills in, with `time.Now()` read at ticks
`t`, `t + 1` and `t + 2`. -/
def rootCATemplate (sys : Sys) (t : Nat) : Certificate :=
  { SerialNumber := pickSerial sys t,
    Subject := { Organization := ["Controller Authority"] },
    NotBefore := sys.now (t + 1) + (-15) * second,
    NotAfter := sys.now (t + 2) + 3 * 365 * 24 * hour,
    IsCA := true,
    KeyUsage := keyUsageCertSign,
    ExtKeyUsage := [ExtKeyUsage.any],
    MaxPathLen := 0,
    MaxPathLenZero := true,
    BasicConstraintsValid := true }

/-- Go `generateRootCA`. For a key that is not a `crypto.Signer` it returns
`errors.Wrap(err, "unable to parse key")` with `err` still nil. -/
def generateRootCA (sys : Sys) (key : PrivateKey) (w : World) :
    (Option Certificate × Option String) × World :=
  match key with
  | PrivateKey.other _ => ((none, wrap none "unable to parse key"), w)
  | PrivateKey.signer pub =>
    let template := rootCATemplate sys w.tick
    match sys.createCertificate (w.tick + 3) template template pub key with
    | Except.error e =>
      ((none, wrap (some e) "unable to create CA certificate"), w.advance 4)
    | Except.ok der => (certResult (sys.parseCertificate der), w.advance 4)

/-- Lines 50 to 60 of `InitRootCA`: the loaded key, or a new key that has been
stored; `Except.error` is the error `InitRootCA` returns at once. -/
def loadOrCreateKey (sys : Sys) (w : World) : Except String PrivateKey × World :=
  match w.keyFile with
  | some key => (Except.ok key, w)
  | none =>
    match sys.generateKey w.tick with
    | Except.error e => (Except.error ("unable to generate CA key" ++ ": " ++ e), w.advance 1)
    | Except.ok pub =>
      match sys.storeKeyErr (w.tick + 1) with
      | some e => (Except.error ("unable to store CA key" ++ ": " ++ e), w.advance 2)
      | none =>
        (Except.ok (PrivateKey.signer pub),
          { w with keyFile := some (PrivateKey.signer pub), tick := w.tick + 2 })

/-- Lines 64 to 74 of `InitRootCA`: the loaded certificate, or the one
`generateRootCA` returned and `StoreCertificate` has stored; `Proc.ret
(Except.error e)` is the error `InitRootCA` returns at once. -/
def loadOrCreateCert (sys : Sys) (key : PrivateKey) (w : World) :
    Proc (Except String (Option Certificate)) × World :=
  match w.certFile with
  | some cert => (Proc.ret (Except.ok (some cert)), w)
  | none =>
    match generateRootCA sys key w with
    | ((_, some e), w1) =>
      (Proc.ret (Except.error ("unable to generate root CA" ++ ": " ++ e)), w1)
    | ((cert, none), w1) =>
      match sys.storeCertificate w1.tick cert with
      | StoreOutcome.panicked => (Proc.panic, w1.advance 1)
      | StoreOutcome.failed e =>
        (Proc.ret (Except.error ("unable to store CA certificate" ++ ": " ++ e)),
          w1.advance 1)
      | StoreOutcome.stored =>
        (Proc.ret (Except.ok cert), { w1 with certFile := cert, tick := w1.tick + 1 })

/-- Go `InitRootCA`, for a fixed `certsDir`. The first argument bounds the depth
of the calls: `n + 1` allows the call and `n` nested calls; `none` means the
bound was reached. -/
def InitRootCA (sys : Sys) :
    Nat → World → Option (Proc (Option RootCA × Option String) × World)
  | 0, _ => none
  | fuel + 1, w =>
    match sys.mkdirAllErr w.tick with
    | some e =>
      some (Proc.ret (none, some ("unable to create CA directory" ++ ": " ++ e)),
        w.advance 1)
    | none =>
      match loadOrCreateKey sys (w.advance 1) with
      | (Except.error e, w1) => some (Proc.ret (none, some e), w1)
      | (Except.ok key, w1) =>
        match loadOrCreateCert sys key w1 with
        | (Proc.panic, w2) => some (Proc.panic, w2)
        | (Proc.exit code, w2) => some (Proc.exit code, w2)
        | (Proc.ret (Except.error e), w2) => some (Proc.ret (none, some e), w2)
        | (Proc.ret (Except.ok cert), w2) =>
          match key with
          | PrivateKey.other _ => some (Proc.panic, w2)
          | PrivateKey.signer pub =>
            match sys.marshalPKIXPublicKey pub with
            | Except.error e =>
              some (Proc.ret (none, some ("unable to marshal public key" ++ ": " ++ e)), w2)
            | Except.ok certDER =>
              match cert with
              | none => some (Proc.panic, w2)
              | some c =>
                if c.RawSubjectPublicKeyInfo ≠ certDER then
                  match sys.removeErr w2.tick with
                  | some e =>
                    some (Proc.ret
                      (none, some ("unable to remove invalid cert" ++ ": " ++ e)),
                      w2.advance 1)
                  | none =>
                    InitRootCA sys fuel { w2 with certFile := none, tick := w2.tick + 1 }
                else some (Proc.ret (some { Cert := some c, Key := key }, none), w2)

/-- Go `(*RootCA).CAChain`. -/
def RootCA.CAChain (ca : RootCA) : List (Option Certificate) × Option String :=
  ([ca.Cert], none)

/-- The certificates that `x509` hands back carry the key they were made for:
when `CreateCertificate` succeeds for the public key `pub`, the certificate
parsed from its output has the PKIX encoding of `pub` as
`RawSubjectPublicKeyInfo`. -/
def X509Consistent (sys : Sys) : Prop :=
  ∀ (t : Nat) (template parent : Certificate) (pub : PublicKey) (priv : PrivateKey)
    (der : Bytes) (c : Certificate) (b : Bytes),
    sys.createCertificate t template parent pub priv = Except.ok der →
    sys.parseCertificate der = Except.ok c →
    sys.marshalPKIXPublicKey pub = Except.ok b →
    c.RawSubjectPublicKeyInfo = b

/-- The template that `newTLSCert` fills in, with `time.Now()` read at ticks `t`
and `t + 1`; `caCert` is `ca.Cert`. -/
def tlsCertTemplate (sys : Sys) (t : Nat) (caCert : Certificate) (sni : String)
    (extKeyUsage : List ExtKeyUsage) : Certificate :=
  { SerialNumber := pickSerial sys t,
    Subject := { CommonName := sni },
    KeyUsage := keyUsageDigitalSignature,
    ExtKeyUsage := extKeyUsage,
    NotBefore := sys.now (t + 1),
    NotAfter := caCert.NotAfter }

/-- Go `(*RootCA).newTLSCert`; reading `ca.Cert.NotAfter` panics when `ca.Cert`
is nil. -/
def RootCA.newTLSCert (sys : Sys) (ca : RootCA) (key : PrivateKey) (sni : String)
    (extKeyUsage : List ExtKeyUsage) (w : World) :
    Proc (Option Certificate × Option String) × World :=
  match key with
  | PrivateKey.other goType =>
    (Proc.ret (none, some ("invalid private key type: " ++ goType)), w)
  | PrivateKey.signer pub =>
    match ca.Cert with
    | none => (Proc.panic, w.advance 2)
    | some caCert =>
      let template := tlsCertTemplate sys w.tick caCert sni extKeyUsage
      match sys.createCertificate (w.tick + 2) template caCert pub ca.Key with
      | Except.error e =>
        (Proc.ret (none, wrap (some e) "unable to sign certificate"), w.advance 3)
      | Except.ok der => (Proc.ret (certResult (sys.parseCertificate der)), w.advance 3)

/-- Go `(*RootCA).NewTLSClientCert`. -/
def RootCA.NewTLSClientCert (sys : Sys) (ca : RootCA) (key : PrivateKey) (sni : String)
    (w : World) : Proc (Option Certificate × Option String) × World :=
  RootCA.newTLSCert sys ca key sni [ExtKeyUsage.clientAuth] w

/-- Go `(*RootCA).NewTLSServerCert`. -/
def RootCA.NewTLSServerCert (sys : Sys) (ca : RootCA) (key : PrivateKey) (sni : String)
    (w : World) : Proc (Option Certificate × Option String) × World :=
  RootCA.newTLSCert sys ca key sni [ExtKeyUsage.serverAuth] w

/-- Go `x509.CertificateRequest`, with the fields of concern: the subject the
requester put in and the public key. -/
structure CertificateRequest where
  Subject : PkixName
  PublicKey : EdgeController.PublicKey
deriving DecidableEq, Repr

/-- What `SignCSR` and `newTLSCert` return once the template is filled in: they
call `x509.CreateCertificate(rand.Reader, template, parent, pub, priv)` at tick
`t`, wrap its error with `unable to sign certificate`, and return the result of
`x509.ParseCertificate` otherwise. -/
def signTemplate (sys : Sys) (t : Nat) (template parent : Certificate) (pub : PublicKey)
    (priv : PrivateKey) : Proc (Option Certificate × Option String) :=
  match sys.createCertificate t template parent pub priv with
  | Except.error e => Proc.ret (none, wrap (some e) "unable to sign certificate")
  | Except.ok der => Proc.ret (certResult (sys.parseCertificate der))

/-- The template that `SignCSR` fills in, with `time.Now()` read at ticks `t` and
`t + 1`; `template` is the caller's template and `caCert` is `ca.Cert`. -/
def signCSRTemplate (sys : Sys) (t : Nat) (template caCert : Certificate) : Certificate :=
  { SerialNumber := pickSerial sys t,
    Subject := template.Subject,
    NotBefore := sys.now (t + 1),
    NotAfter := caCert.NotAfter }

/-- Go `(*RootCA).SignCSR`; `parseCertificateRequest` is
`x509.ParseCertificateRequest`. Reading `template.Subject` of a nil template and
`ca.Cert.NotAfter` of a nil certificate panic. -/
def RootCA.SignCSR (sys : Sys)
    (parseCertificateRequest : Bytes → Except String CertificateRequest)
    (ca : RootCA) (der : Bytes) (template : Option Certificate) (w : World) :
    Proc (Option Certificate × Option String) × World :=
  match parseCertificateRequest der with
  | Except.error e => (Proc.ret (none, wrap (some e) "unable to parse CSR"), w)
  | Except.ok csr =>
    match template with
    | none => (Proc.panic, w.advance 1)
    | some template =>
      match ca.Cert with
      | none => (Proc.panic, w.advance 2)
      | some caCert =>
        (signTemplate sys (w.tick + 2) (signCSRTemplate sys w.tick template caCert) caCert
          csr.PublicKey ca.Key, w.advance 3)

/-! ## TLS set-up and start-up (`cmd/cce/main.go`) -/

/-- Go `tls.ClientAuthType`. -/
inductive ClientAuthType where
  | NoClientCert
  | RequestClientCert
  | RequireAnyClientCert
  | VerifyClientCertIfGiven
  | RequireAndVerifyClientCert
deriving DecidableEq, Repr

/-- Go `tls.VersionTLS12`. -/
def versionTLS12 : Nat := 0x0303

/-- Go `tls.TLS_ECDHE_ECDSA_WITH_AES_128_GCM_SHA256`. -/
def tlsEcdheEcdsaWithAes128GcmSha256 : Nat := 0xc02b

/-- Go `tls.Certificate`, with the fields the set-up fills in. -/
structure TLSCertificate where
  Certificate : List Bytes
  PrivateKey : EdgeController.PrivateKey
  Leaf : Option EdgeController.Certificate
deriving DecidableEq, Repr

/-- Go `tls.Config`, with the fields the set-up fills in, except
`GetConfigForClient`; a certificate pool is the list of its certificates, `none`
a nil pool. -/
structure TLSConfig where
  Certificates : List TLSCertificate := []
  RootCAs : Option (List Certificate) := none
  ClientCAs : Option (List Certificate) := none
  NextProtos : List String := []
  ClientAuth : ClientAuthType := ClientAuthType.NoClientCert
  MinVersion : Nat := 0
  CipherSuites : List Nat := []
deriving DecidableEq, Repr

/-- Modelled from the spec: the constant `grpc.SNI` of the repository's `grpc`
package, which is not among the sources; the spec names the authenticated server
name `controller.openness`. -/
def grpcSNI : String := "controller.openness"

/-- Modelled from the spec: the constant `grpc.EnrollmentSNI` of the repository's
`grpc` package, which is not among the sources; the spec names the enrollment
server name `enroll.controller.openness`. -/
def grpcEnrollmentSNI : String := "enroll.controller.openness"

/-- The loop `for _, caCert := range tlsCAChain { tlsChain = append(tlsChain,
caCert.Raw) }`: the appended encodings, or `none` when an entry is nil and
reading `caCert.Raw` panics. -/
def rawChain : List (Option Certificate) → Option (List Bytes)
  | [] => some []
  | none :: _ => none
  | some c :: rest =>
    match rawChain rest with
    | none => none
    | some raws => some (c.Raw :: raws)

/-- The lines that `newTLSConf` and `newClientTLSConf` have in common (434 to
455 and 470 to 491): a new key, a certificate for it from `issue`, the chain and
the pool with the last certificate of the CA chain. A failure ends the process
with `os.Exit(1)`; an index out of range, a nil certificate that is read and
`AddCert(nil)` panic. -/
def tlsKeyChainRoots (sys : Sys)
    (issue : PrivateKey → String → World → Proc (Option Certificate × Option String) × World)
    (rootCA : RootCA) (sni : String) (w : World) :
    Proc (TLSCertificate × List Certificate) × World :=
  match sys.generateKey w.tick with
  | Except.error _ => (Proc.exit 1, w.advance 1)
  | Except.ok pub =>
    let tlsKey := PrivateKey.signer pub
    match issue tlsKey sni (w.advance 1) with
    | (Proc.panic, w1) => (Proc.panic, w1)
    | (Proc.exit code, w1) => (Proc.exit code, w1)
    | (Proc.ret (_, some _), w1) => (Proc.exit 1, w1)
    | (Proc.ret (tlsCert, none), w1) =>
      match rootCA.CAChain with
      | (_, some _) => (Proc.exit 1, w1)
      | (tlsCAChain, none) =>
        match tlsCert with
        | none => (Proc.panic, w1)
        | some leaf =>
          match rawChain tlsCAChain with
          | none => (Proc.panic, w1)
          | some raws =>
            match tlsCAChain[tlsCAChain.length - 1]? with
            | none => (Proc.panic, w1)
            | some none => (Proc.panic, w1)
            | some (some root) =>
              (Proc.ret
                ({ Certificate := leaf.Raw :: raws, PrivateKey := tlsKey, Leaf := some leaf },
                  [root]), w1)

/-- Go `newTLSConf`. -/
def newTLSConf (sys : Sys) (rootCA : RootCA) (sni : String) (w : World) :
    Proc TLSConfig × World :=
  match tlsKeyChainRoots sys (RootCA.NewTLSServerCert sys rootCA) rootCA sni w with
  | (Proc.panic, w1) => (Proc.panic, w1)
  | (Proc.exit code, w1) => (Proc.exit code, w1)
  | (Proc.ret (cert, tlsRoots), w1) =>
    (Proc.ret
      { Certificates := [cert],
        ClientCAs := some tlsRoots,
        MinVersion := versionTLS12,
        CipherSuites := [tlsEcdheEcdsaWithAes128GcmSha256] }, w1)

/-- Go `newClientTLSConf`. -/
def newClientTLSConf (sys : Sys) (rootCA : RootCA) (sni : String) (w : World) :
    Proc TLSConfig × World :=
  match tlsKeyChainRoots sys (RootCA.NewTLSClientCert sys rootCA) rootCA sni w with
  | (Proc.panic, w1) => (Proc.panic, w1)
  | (Proc.exit code, w1) => (Proc.exit code, w1)
  | (Proc.ret (cert, tlsRoots), w1) =>
    (Proc.ret
      { Certificates := [cert],
        RootCAs := some tlsRoots,
        MinVersion := versionTLS12,
        CipherSuites := [tlsEcdheEcdsaWithAes128GcmSha256] }, w1)

/-- The `GetConfigForClient` callback that `getGRPCTLS` builds, applied to
`hello.ServerName`: the returned pair `(config, error)`. -/
def grpcConfigForClient (serverConf enrollmentConf : TLSConfig) (serverName : String) :
    Option TLSConfig × Option String :=
  if serverName = grpcSNI then (some serverConf, none)
  else if serverName = grpcEnrollmentSNI then (some enrollmentConf, none)
  else (none, some ("unexpected server name: " ++ serverName))

/-- Go `getGRPCTLS`. The configuration it returns has `GetConfigForClient` as
its only field, and that callback is the result here. -/
def getGRPCTLS (sys : Sys) (rootCA : RootCA) (w : World) :
    Proc (String → Option TLSConfig × Option String) × World :=
  match newTLSConf sys rootCA grpcSNI w with
  | (Proc.panic, w1) => (Proc.panic, w1)
  | (Proc.exit code, w1) => (Proc.exit code, w1)
  | (Proc.ret conf1, w1) =>
    let serverConf : TLSConfig :=
      { conf1 with NextProtos := ["h2"],
                   ClientAuth := ClientAuthType.RequireAndVerifyClientCert }
    match newTLSConf sys rootCA grpcEnrollmentSNI w1 with
    | (Proc.panic, w2) => (Proc.panic, w2)
    | (Proc.exit code, w2) => (Proc.exit code, w2)
    | (Proc.ret conf2, w2) =>
      let enrollmentConf : TLSConfig :=
        { conf2 with NextProtos := ["h2"], ClientAuth := ClientAuthType.NoClientCert }
      (Proc.ret (grpcConfigForClient serverConf enrollmentConf), w2)

/-- Modelled from the spec: the type `cce.OrchestrationMode` and its constants
`OrchestrationModeNative`, `OrchestrationModeKubernetes` and
`OrchestrationModeKubernetesOVN` are declared outside the sources; the spec
lists the three modes. -/
inductive OrchestrationMode where
  | Native
  | Kubernetes
  | KubernetesOVN
deriving DecidableEq, Repr

/-- Go `setupOrchestrator`, for the flag value `orchMode`. `zeroMode` is the
zero value of `cce.OrchestrationMode`, which the declaration of the type fixes,
and `pingErr` is the error that `k8sClient.Ping()` returns when it is called. -/
def setupOrchestrator (zeroMode : OrchestrationMode) (pingErr : Option String)
    (orchMode : String) : OrchestrationMode × Option String :=
  if orchMode = "native" then (OrchestrationMode.Native, none)
  else if orchMode = "kubernetes" then (OrchestrationMode.Kubernetes, pingErr)
  else if orchMode = "kubernetes-ovn" then (OrchestrationMode.KubernetesOVN, pingErr)
  else (zeroMode, some ("Invalid orchestration mode " ++ orchMode))

/-- The command-line flags that `main` reads before it sets up the
orchestrator. -/
structure Flags where
  adminPass : String
  logLevel : String
  orchMode : String
deriving DecidableEq, Repr

/-- Go `main`, lines 111 to 136; `parseLevelErr` is the error of
`logger.ParseLevel`, and `rest` is the remainder of `main`, from line 138 on,
for the mode that `setupOrchestrator` returned. -/
def main (flags : Flags) (parseLevelErr : String → Option String)
    (zeroMode : OrchestrationMode) (pingErr : Option String)
    (rest : OrchestrationMode → Proc Unit) : Proc Unit :=
  if flags.adminPass = "" then Proc.exit 1
  else
    match parseLevelErr flags.logLevel with
    | some _ => Proc.exit 1
    | none =>
      match setupOrchestrator zeroMode pingErr flags.orchMode with
      | (_, some _) => Proc.exit 1
      | (orchestrationMode, none) => rest orchestrationMode

/-! ## Conversion to protobuf messages (`grpc/clients/traffic_policy.go`)

The message types of package `elapb` are generated code that is not among the
sources; their fields are the ones the composite literals of
`traffic_policy.go` set. -/

/-- Go `uint32(x)` for an `int` value `x`. -/
def toUint32 (x : Int) : Nat :=
  (x % 2 ^ 32).toNat

/-- Modelled from the spec: message `elapb.MACFilter`, whose fields mirror the
entity. -/
structure PBMACFilter where
  MacAddresses : List String
deriving DecidableEq, Repr

/-- Modelled from the spec: message `elapb.IPFilter`, whose fields mirror the
entity, with `uint32` numbers. -/
structure PBIPFilter where
  Address : String
  Mask : Nat
  BeginPort : Nat
  EndPort : Nat
  Protocol : String
deriving DecidableEq, Repr

/-- Modelled from the spec: message `elapb.GTPFilter`, whose fields mirror the
entity, with a `uint32` mask. -/
structure PBGTPFilter where
  Address : String
  Mask : Nat
  Imsis : List String
deriving DecidableEq, Repr

/-- Modelled from the spec: message `elapb.TrafficSelector`, whose fields mirror
the entity. -/
structure PBTrafficSelector where
  Description : String
  Macs : Option PBMACFilter
  Ip : Option PBIPFilter
  Gtp : Option PBGTPFilter
deriving DecidableEq, Repr

/-- Modelled from the spec: the enumeration `elapb.TrafficTarget_TargetAction`,
with the three values that `toPBTargetAction` returns. -/
inductive PBTargetAction where
  | ACCEPT
  | REJECT
  | DROP
deriving DecidableEq, Repr

/-- Modelled from the spec: message `elapb.MACModifier`, whose field mirrors the
entity. -/
structure PBMACModifier where
  MacAddress : String
deriving DecidableEq, Repr

/-- Modelled from the spec: message `elapb.IPModifier`, whose fields mirror the
entity, with a `uint32` port. -/
structure PBIPModifier where
  Address : String
  Port : Nat
deriving DecidableEq, Repr

/-- Modelled from the spec: message `elapb.TrafficTarget`, whose fields mirror
the entity, with the action as an enumeration. -/
structure PBTrafficTarget where
  Description : String
  Action : PBTargetAction
  Mac : Option PBMACModifier
  Ip : Option PBIPModifier
deriving DecidableEq, Repr

/-- Modelled from the spec: message `elapb.TrafficRule`, whose fields mirror the
entity, with a `uint32` priority. -/
structure PBTrafficRule where
  Description : String
  Priority : Nat
  Source : Option PBTrafficSelector
  Destination : Option PBTrafficSelector
  Target : Option PBTrafficTarget
deriving DecidableEq, Repr

/-- Modelled from the spec: message `elapb.TrafficPolicy`; `TrafficRules` is a
slice of pointers. -/
structure PBTrafficPolicy where
  Id : String
  TrafficRules : List (Option PBTrafficRule)
deriving DecidableEq, Repr

/-- Go `toPBMACFilter`. -/
def toPBMACFilter (macf : Option MACFilter) : Option PBMACFilter :=
  match macf with
  | none => none
  | some macf => some { MacAddresses := macf.MACAddresses }

/-- Go `toPBIPFilter`. -/
def toPBIPFilter (ipf : Option IPFilter) : Option PBIPFilter :=
  match ipf with
  | none => none
  | some ipf =>
    let protocol := if ipf.Protocol ≠ "all" then ipf.Protocol else ""
    some { Address := ipf.Address,
           Mask := toUint32 ipf.Mask,
           BeginPort := toUint32 ipf.BeginPort,
           EndPort := toUint32 ipf.EndPort,
           Protocol := protocol }

/-- Go `toPBGTPFilter`. -/
def toPBGTPFilter (gtpf : Option GTPFilter) : Option PBGTPFilter :=
  match gtpf with
  | none => none
  | some gtpf =>
    some { Address := gtpf.Address, Mask := toUint32 gtpf.Mask, Imsis := gtpf.IMSIs }

/-- Go `toPBTrafficSelector`. -/
def toPBTrafficSelector (ts : Option TrafficSelector) : Option PBTrafficSelector :=
  match ts with
  | none => none
  | some ts =>
    some { Description := ts.Description,
           Macs := toPBMACFilter ts.MACs,
           Ip := toPBIPFilter ts.IP,
           Gtp := toPBGTPFilter ts.GTP }

/-- Go `toPBTargetAction`; any other action panics. -/
def toPBTargetAction (action : String) : Run PBTargetAction :=
  if action = "accept" then Run.ret PBTargetAction.ACCEPT
  else if action = "reject" then Run.ret PBTargetAction.REJECT
  else if action = "drop" then Run.ret PBTargetAction.DROP
  else Run.panic

/-- Go `toPBMACModifier`. -/
def toPBMACModifier (macMod : Option MACModifier) : Option PBMACModifier :=
  match macMod with
  | none => none
  | some macMod => some { MacAddress := macMod.MACAddress }

/-- Go `toPBIPModifier`. -/
def toPBIPModifier (ipMod : Option IPModifier) : Option PBIPModifier :=
  match ipMod with
  | none => none
  | some ipMod => some { Address := ipMod.Address, Port := toUint32 ipMod.Port }

/-- Go `toPBTrafficTarget`. -/
def toPBTrafficTarget (target : Option TrafficTarget) : Run (Option PBTrafficTarget) :=
  match target with
  | none => Run.ret none
  | some target =>
    match toPBTargetAction target.Action with
    | Run.panic => Run.panic
    | Run.ret action =>
      Run.ret (some { Description := target.Description,
                      Action := action,
                      Mac := toPBMACModifier target.MAC,
                      Ip := toPBIPModifier target.IP })

/-- Go `toPBTrafficRule`; reading `tr.Description` of a nil rule panics. -/
def toPBTrafficRule (tr : Option TrafficRule) : Run PBTrafficRule :=
  match tr with
  | none => Run.panic
  | some tr =>
    match toPBTrafficTarget tr.Target with
    | Run.panic => Run.panic
    | Run.ret target =>
      Run.ret { Description := tr.Description,
                Priority := toUint32 tr.Priority,
                Source := toPBTrafficSelector tr.Source,
                Destination := toPBTrafficSelector tr.Destination,
                Target := target }

/-- The loop of `toPBTrafficPolicy`: the rules still to convert are appended to
`acc`, which is `pbPolicy.TrafficRules`. -/
def toPBTrafficRules : List (Option TrafficRule) → List (Option PBTrafficRule) →
    Run (List (Option PBTrafficRule))
  | [], acc => Run.ret acc
  | rule :: rest, acc =>
    match toPBTrafficRule rule with
    | Run.panic => Run.panic
    | Run.ret pbRule => toPBTrafficRules rest (acc ++ [some pbRule])

/-- Go `toPBTrafficPolicy`. -/
def toPBTrafficPolicy (id : String) (tp : Option TrafficPolicy) : Run PBTrafficPolicy :=
  match tp with
  | none => Run.ret { Id := id, TrafficRules := [] }
  | some tp =>
    match toPBTrafficRules tp.Rules [] with
    | Run.panic => Run.panic
    | Run.ret rules => Run.ret { Id := id, TrafficRules := rules }

/-! ## The application lifecycle client
(`grpc/clients/application_lifecycle_service_client.go`) -/

/-- A Go error as `github.com/pkg/errors` sees it: an error without a `Cause`
method, such as a gRPC status error, given by its `Error()` text, or the result
of `errors.Wrap(cause, msg)`. -/
inductive GoError where
  | plain (msg : String)
  | wrapped (cause : GoError) (msg : String)
deriving DecidableEq, Repr

/-- Go `err.Error()`; a wrapped error reads `msg: cause`. -/
def GoError.Error : GoError → String
  | GoError.plain msg => msg
  | GoError.wrapped cause msg => msg ++ ": " ++ GoError.Error cause

/-- Go `errors.Cause(err)`: the innermost error that has no `Cause` method. -/
def GoError.Cause : GoError → GoError
  | GoError.plain msg => GoError.plain msg
  | GoError.wrapped cause _ => GoError.Cause cause

/-- Go `errors.Wrap(err, msg)` on error values: nil for a nil `err`. -/
def errorsWrap (err : Option GoError) (msg : String) : Option GoError :=
  match err with
  | none => none
  | some e => some (GoError.wrapped e msg)

/-- The values of `evapb.LifecycleCommand_CommandType` that the client sends. -/
inductive LifecycleCommandType where
  | START
  | STOP
  | RESTART
deriving DecidableEq, Repr

/-- Message `evapb.LifecycleCommand`. -/
structure LifecycleCommand where
  Id : String
  Cmd : LifecycleCommandType
deriving DecidableEq, Repr

/-- The interface `evapb.ApplicationLifecycleServiceClient`, the remote end of
the client: each call returns the error of the RPC, `GetStatus` also a status
message of type `pbStatus`. -/
structure PBLifecycleClient (pbStatus : Type) where
  Start : LifecycleCommand → Option GoError
  Stop : LifecycleCommand → Option GoError
  Restart : LifecycleCommand → Option GoError
  GetStatus : String → pbStatus × Option GoError

/-- Go `(*ApplicationLifecycleServiceClient).Start`. -/
def ApplicationLifecycleServiceClient.Start {pbStatus : Type}
    (c : PBLifecycleClient pbStatus) (id : String) : Option GoError :=
  match c.Start { Id := id, Cmd := LifecycleCommandType.START } with
  | some err => errorsWrap (some err) "error starting application"
  | none => none

/-- Go `(*ApplicationLifecycleServiceClient).Stop`. -/
def ApplicationLifecycleServiceClient.Stop {pbStatus : Type}
    (c : PBLifecycleClient pbStatus) (id : String) : Option GoError :=
  match c.Stop { Id := id, Cmd := LifecycleCommandType.STOP } with
  | some err => errorsWrap (some err) "error stopping application"
  | none => none

/-- Go `(*ApplicationLifecycleServiceClient).Restart`. -/
def ApplicationLifecycleServiceClient.Restart {pbStatus : Type}
    (c : PBLifecycleClient pbStatus) (id : String) : Option GoError :=
  match c.Restart { Id := id, Cmd := LifecycleCommandType.RESTART } with
  | some err => errorsWrap (some err) "error restarting application"
  | none => none

/-- Go `(*ApplicationLifecycleServiceClient).GetStatus`; `unknown` is
`cce.Unknown` and `fromPBLifecycleStatus` the conversion of the status message,
both declared outside the sources. -/
def ApplicationLifecycleServiceClient.GetStatus {pbStatus status : Type}
    (c : PBLifecycleClient pbStatus) (unknown : status)
    (fromPBLifecycleStatus : pbStatus → status) (id : String) :
    status × Option GoError :=
  match c.GetStatus id with
  | (_, some err) => (unknown, errorsWrap (some err) "error retrieving application")
  | (pbSt, none) => (fromPBLifecycleStatus pbSt, none)

/-! ## Bulk update of the network interfaces of a node -/

/-- Modelled from the spec: the entity `NetworkInterface`, which is not among
the sources: `{id, description, driver, type, macAddress, vlan, zones,
fallbackInterface}`, keyed by its id; `InterfaceType` is the field `type`. -/
structure NetworkInterface where
  ID : String
  Description : String
  Driver : String
  InterfaceType : String
  MACAddress : String
  VLAN : Int
  Zones : List String
  FallbackInterface : String
deriving DecidableEq, Repr

/-- Modelled from the spec: the field validation of a network interface, which
is not among the sources: the driver is one of `kernel` and `userspace` and the
type one of `none`, `upstream`, `downstream`, `bidirectional` and `breakout`.
The messages are those of the 400 cases of `nodes_test.go`; the driver is
checked first, the case with both fields empty reporting the driver. -/
def NetworkInterface.Validate (n : NetworkInterface) : Option String :=
  if !(n.Driver == "kernel" || n.Driver == "userspace") then
    some "driver must be one of [kernel, userspace]"
  else if !(n.InterfaceType == "none" || n.InterfaceType == "upstream" ||
      n.InterfaceType == "downstream" || n.InterfaceType == "bidirectional" ||
      n.InterfaceType == "breakout") then
    some "type must be one of [none, upstream, downstream, bidirectional, breakout]"
  else none

/-- Modelled from the spec: the validation of the interfaces of a request from
the index `i` on: the first interface that fails its validation is reported
under its index, as in the 400 cases of `nodes_test.go`
(`Validation failed: network_interfaces[0].driver must be one of ...`). -/
def validateInterfaces : List NetworkInterface → Nat → Option String
  | [], _ => none
  | n :: rest, i =>
    match n.Validate with
    | some e =>
      some ("Validation failed: network_interfaces[" ++ toString i ++ "]." ++ e)
    | none => validateInterfaces rest (i + 1)

/-- The id `i` is the id of one of the interfaces. -/
def hasInterface (ifs : List NetworkInterface) (i : String) : Bool :=
  ifs.any fun n => n.ID == i

/-- Modelled from the spec: the replacement of the stored interface that has
the id of `r` by `r`; the interfaces are keyed by their id, so the ids stored
stay what they were. -/
def replaceInterface (stored : List NetworkInterface) (r : NetworkInterface) :
    List NetworkInterface :=
  stored.map fun k => if k.ID == r.ID then r else k

/-- The outcome of a bulk update: the HTTP status of the response, the error
text of its body, if any, and the interfaces stored for the node afterwards. -/
structure BulkUpdateResult where
  Status : Nat
  Error : Option String
  Interfaces : List NetworkInterface
deriving DecidableEq, Repr

/-- Modelled from the spec: the bulk update of the interfaces of a node
(`PATCH /nodes/{node_id}/interfaces`), whose handler and agent are not among
the sources. `known` are the interfaces stored for the node and `request` the
interfaces of the request. The steps and their order are those of the spec and
of the cases of `nodes_test.go`:
* the field validation runs before anything else (a request with `if0` alone
  and an empty driver is answered 400 with the validation message, not with the
  missing `if1`);
* an id that is not known fails the request with status 404 and
  `Network Interface <id> not found`;
* a known id that is missing fails it with status 500 and the
  `FailedPrecondition` error of the agent behind the prefix
  `error bulk updating network interfaces: `, the first such id in the order of
  `known` being named;
* otherwise the status is 200 and each interface of the request replaces, in
  the order of the request, the stored interface of its id.
A request that fails changes nothing. -/
def bulkUpdateInterfaces (known request : List NetworkInterface) : BulkUpdateResult :=
  match validateInterfaces request 0 with
  | some e => { Status := 400, Error := some e, Interfaces := known }
  | none =>
    match request.find? (fun r => !hasInterface known r.ID) with
    | some r =>
      { Status := 404, Error := some ("Network Interface " ++ r.ID ++ " not found"),
        Interfaces := known }
    | none =>
      match known.find? (fun k => !hasInterface request k.ID) with
      | some k =>
        { Status := 500,
          Error := some ("error bulk updating network interfaces: " ++
            "rpc error: code = FailedPrecondition desc = " ++
            "Network Interface " ++ k.ID ++ " missing from request"),
          Interfaces := known }
      | none =>
        { Status := 200, Error := none,
          Interfaces := request.foldl replaceInterface known }

/-! ## Further concrete values -/

/-- The IP filter of the fixture's source selector, with the protocol `all`. -/
def fixtureAllIPFilter : IPFilter :=
  { Address := "223.1.1.0", Mask := 16, BeginPort := 2000, EndPort := 2012,
    Protocol := "all" }

/-- The first rule of the fixture, with the protocol `all` in the IP filter of its
source selector. -/
def fixtureAllRule : TrafficRule :=
  { fixtureRule with Source := some { fixtureSource with IP := some fixtureAllIPFilter } }

/-! ## A concrete system -/

/-- A small system for evaluating the authority and the TLS set-up: no external
call fails, the clock advances by one nanosecond per call, a new key is numbered
by the tick at which it is made, the PKIX encoding of a key is the one byte of
its number, and a certificate is encoded as the PKIX encoding of its key. -/
def fixtureSys : Sys where
  mkdirAllErr := fun _ => none
  generateKey := fun t => Except.ok { id := t }
  storeKeyErr := fun _ => none
  storeCertificate := fun _ _ => StoreOutcome.stored
  removeErr := fun _ => none
  now := fun t => 1572868800000000000 + (t : Int)
  randUint64 := fun seed => seed.toNat % 2 ^ 64
  createCertificate := fun _ _ _ pub priv =>
    match priv with
    | PrivateKey.signer _ => Except.ok [pub.id]
    | PrivateKey.other _ =>
      Except.error "x509: certificate private key does not implement crypto.Signer"
  parseCertificate := fun der =>
    match der with
    | [k] => Except.ok { Raw := [k], RawSubjectPublicKeyInfo := [k] }
    | _ => Except.error "x509: malformed certificate"
  marshalPKIXPublicKey := fun pub => Except.ok [pub.id]

/-- A certificates directory that holds the key number 7 and a certificate made
for the key number 8. -/
def mismatchedWorld : World :=
  { keyFile := some (PrivateKey.signer { id := 7 }),
    certFile := some { Raw := [8], RawSubjectPublicKeyInfo := [8] },
    tick := 0 }

/-- The authority that `InitRootCA` returns for `mismatchedWorld`. -/
def fixtureRootCA : RootCA :=
  { Cert := some { Raw := [7], RawSubjectPublicKeyInfo := [7] },
    Key := PrivateKey.signer { id := 7 } }

/-- The concrete system at a clock reading of `1257894000000000012` nanoseconds,
with a generator whose value for that seed is `11337923308403272142`, which has
the top bit set, and with the check of `x509.CreateCertificate` that refuses a
template whose serial number is negative. -/
def highSerialSys : Sys :=
  { fixtureSys with
    now := fun _ => 1257894000000000012,
    randUint64 := fun seed =>
      if seed = 1257894000000000012 then 11337923308403272142 else seed.toNat % 2 ^ 64,
    createCertificate := fun t template parent pub priv =>
      if template.SerialNumber < 0 then Except.error "x509: serial number must be positive"
      else fixtureSys.createCertificate t template parent pub priv }

/-- A parser of certificate requests for the concrete system: a request is
encoded as the one byte of the number of its key. -/
def fixtureParseCSR (der : Bytes) : Except String CertificateRequest :=
  match der with
  | [k] => Except.ok { Subject := { CommonName := "requested" }, PublicKey := { id := k } }
  | _ => Except.error "asn1: syntax error: sequence truncated"

/-- A remote end whose every call fails with the status error of the test suite
for an application that does not exist. -/
def notFoundClient : PBLifecycleClient Nat where
  Start := fun _ => some (GoError.plain "rpc error: code = NotFound desc = Application not found")
  Stop := fun _ => some (GoError.plain "rpc error: code = NotFound desc = Application not found")
  Restart := fun _ =>
    some (GoError.plain "rpc error: code = NotFound desc = Application not found")
  GetStatus := fun _ =>
    (0, some (GoError.plain "rpc error: code = NotFound desc = Application not found"))

/-- The interface `if<k>` of the node of `nodes_test.go`, as the node reports
it: `interface<k>`, driver `kernel`, type `none`, `mac<k>` and the VLAN `v`. -/
def fixtureInterface (k : String) (v : Int) : NetworkInterface :=
  { ID := "if" ++ k, Description := "interface" ++ k, Driver := "kernel",
    InterfaceType := "none", MACAddress := "mac" ++ k, VLAN := v, Zones := [],
    FallbackInterface := "" }

/-- The four interfaces `if0` to `if3` of the node of `nodes_test.go`. -/
def fixtureInterfaces : List NetworkInterface :=
  [fixtureInterface "0" 0, fixtureInterface "1" 1, fixtureInterface "2" 2,
    fixtureInterface "3" 3]

/-- The first interface of the requests of the 200, 404 and 500 cases of
`nodes_test.go`, with the id `i` and the description `d`: driver `userspace`,
type `upstream`, `mac0` and the VLAN 50. -/
def fixturePatchedInterface (i d : String) : NetworkInterface :=
  { ID := i, Description := d, Driver := "userspace", InterfaceType := "upstream",
    MACAddress := "mac0", VLAN := 50, Zones := [], FallbackInterface := "" }

/-- The interface `if0` of the requests of the 400 cases of `nodes_test.go`,
with the driver `d` and its type left empty. -/
def fixtureEmptyTypeInterface (d : String) : NetworkInterface :=
  { ID := "if0", Description := "", Driver := d, InterfaceType := "",
    MACAddress := "mac0", VLAN := 50, Zones := [], FallbackInterface := "" }

/-- A request that supplies exactly the ids `if0` to `if3` of the node, the
first interface being the one with the empty driver. -/
def fixtureEmptyDriverRequest : List NetworkInterface :=
  [fixtureEmptyTypeInterface "", fixtureInterface "1" 1, fixtureInterface "2" 2,
    fixtureInterface "3" 3]

/-- The certificates directory that `InitRootCA` leaves behind for
`mismatchedWorld`. -/
def initializedWorld : World :=
  { keyFile := some (PrivateKey.signer { id := 7 }),
    certFile := some { Raw := [7], RawSubjectPublicKeyInfo := [7] },
    tick := 8 }

/-- The callback that `getGRPCTLS` builds in the concrete system. -/
def fixtureCallback : String → Option TLSConfig × Option String :=
  match getGRPCTLS fixtureSys fixtureRootCA initializedWorld with
  | (Proc.ret cb, _) => cb
  | _ => fun _ => (none, none)

/-! ## Auxiliary lemmas -/

/-! ### Decimal digits and the path matcher -/

theorem digitChar_isDigit (n : Nat) : (Nat.digitChar (n % 10)).isDigit = true := by
  have h : n % 10 < 10 := Nat.mod_lt _ (by decide)
  interval_cases (n % 10) <;> rfl

theorem toDigitsCore_isDigit (fuel : Nat) :
    ∀ (n : Nat) (acc : List Char), (∀ c ∈ acc, c.isDigit = true) →
      ∀ c ∈ Nat.toDigitsCore 10 fuel n acc, c.isDigit = true := by
  induction fuel with
  | zero => intro n acc h; simpa [Nat.toDigitsCore] using h
  | succ k ih =>
    intro n acc h
    have hacc : ∀ c ∈ Nat.digitChar (n % 10) :: acc, c.isDigit = true := by
      intro c hc
      rcases List.mem_cons.mp hc with rfl | hc
      · exact digitChar_isDigit n
      · exact h c hc
    simp only [Nat.toDigitsCore]
    split
    · exact hacc
    · exact ih _ _ hacc

theorem toString_nat_isDigit (n : Nat) :
    ∀ c ∈ (toString n).toList, c.isDigit = true := by
  show ∀ c ∈ Nat.toDigitsCore 10 (n + 1) n [], c.isDigit = true
  exact toDigitsCore_isDigit _ _ _ (by simp)

theorem toString_nat_ne_nil (n : Nat) : (toString n).toList ≠ [] := by
  show Nat.toDigitsCore 10 (n + 1) n [] ≠ []
  simp only [Nat.toDigitsCore]
  split
  · simp
  · intro h
    have := Nat.toDigitsCore_lens_eq 10 n (n / 10) (Nat.digitChar (n % 10)) []
    rw [h] at this
    simp at this

theorem takeWhile_digits_append (ds rest : List Char)
    (h : ∀ c ∈ ds, c.isDigit = true) :
    (ds ++ ']' :: rest).takeWhile Char.isDigit = ds := by
  induction ds with
  | nil => rfl
  | cons d ds ih =>
    have hd : d.isDigit = true := h d (by simp)
    rw [List.cons_append, List.takeWhile_cons, hd, if_pos rfl,
      ih (fun c hc => h c (by simp [hc]))]

theorem dropWhile_digits_append (ds rest : List Char)
    (h : ∀ c ∈ ds, c.isDigit = true) :
    (ds ++ ']' :: rest).dropWhile Char.isDigit = ']' :: rest := by
  induction ds with
  | nil => rfl
  | cons d ds ih =>
    have hd : d.isDigit = true := h d (by simp)
    rw [List.cons_append, List.dropWhile_cons, hd, if_pos rfl,
      ih (fun c hc => h c (by simp [hc]))]

theorem matchRulePathHere_digits (ds rest : List Char)
    (h : ∀ c ∈ ds, c.isDigit = true) (hne : ds ≠ []) :
    matchRulePathHere ('r' :: 'u' :: 'l' :: 'e' :: 's' :: '[' :: (ds ++ ']' :: rest)) =
      (["].source.", "].destination.", "].target."].any fun k =>
        (stripLit k.toList (']' :: rest)).isSome) := by
  have h1 : stripLit "rules[".toList
      ('r' :: 'u' :: 'l' :: 'e' :: 's' :: '[' :: (ds ++ ']' :: rest)) =
      some (ds ++ ']' :: rest) := rfl
  unfold matchRulePathHere
  rw [h1]
  simp only [takeWhile_digits_append ds rest h, dropWhile_digits_append ds rest h]
  cases ds with
  | nil => exact absurd rfl hne
  | cons d ds => simp

theorem matchesRulePath_build (i : Nat) (tail : String)
    (h : (["].source.", "].destination.", "].target."].any fun k =>
        (stripLit k.toList (']' :: ("." ++ tail).toList)).isSome) = true) :
    matchesRulePath ("rules[" ++ toString i ++ "]." ++ tail) = true := by
  have key : matchRulePathHere ('r' :: 'u' :: 'l' :: 'e' :: 's' :: '[' ::
      ((toString i).toList ++ ']' :: ("." ++ tail).toList)) = true := by
    rw [matchRulePathHere_digits _ _ (toString_nat_isDigit i) (toString_nat_ne_nil i)]
    exact h
  unfold matchesRulePath
  have hl : ("rules[" ++ toString i ++ "]." ++ tail).toList =
      'r' :: 'u' :: 'l' :: 'e' :: 's' :: '[' ::
      ((toString i).toList ++ ']' :: ("." ++ tail).toList) := by
    simp [String.toList, String.data_append]
  rw [hl, List.tails, List.any_cons, key]
  rfl

theorem matchesRulePath_source (i : Nat) (e : String) :
    matchesRulePath ("rules[" ++ toString i ++ "]." ++ ("source" ++ "." ++ e)) = true :=
  matchesRulePath_build i _ rfl

theorem matchesRulePath_destination (i : Nat) (e : String) :
    matchesRulePath ("rules[" ++ toString i ++ "]." ++ ("destination" ++ "." ++ e)) = true :=
  matchesRulePath_build i _ rfl

theorem matchesRulePath_target (i : Nat) (e : String) :
    matchesRulePath ("rules[" ++ toString i ++ "]." ++ ("target." ++ e)) = true :=
  matchesRulePath_build i _ rfl

/-! ### The rule loop -/

theorem validateRulesFrom_all_valid (env : Env) (rs : List (Option TrafficRule)) :
    ∀ i : Nat,
      (∀ r ∈ rs, ∃ rule, r = some rule ∧ TrafficRule.Validate env rule = none) →
      TrafficPolicy.validateRulesFrom env rs i = Run.ret none := by
  induction rs with
  | nil => intro i _; rfl
  | cons r rest ih =>
    intro i h
    obtain ⟨rule, rfl, hv⟩ := h r (by simp)
    simp only [TrafficPolicy.validateRulesFrom, hv]
    exact ih (i + 1) (fun r hr => h r (by simp [hr]))

theorem validateRulesFrom_first_error (env : Env) (rs : List (Option TrafficRule)) :
    ∀ (i k : Nat) (rule : TrafficRule) (e : String),
      rs[k]? = some (some rule) →
      (∀ j < k, ∃ r, rs[j]? = some (some r) ∧ TrafficRule.Validate env r = none) →
      TrafficRule.Validate env rule = some e →
      TrafficPolicy.validateRulesFrom env rs i =
        Run.ret (some ("rules[" ++ toString (i + k) ++ "]." ++ e)) := by
  induction rs with
  | nil => intro i k rule e hk; simp at hk
  | cons r rest ih =>
    intro i k rule e hk hbefore hv
    cases k with
    | zero =>
      simp only [List.getElem?_cons_zero, Option.some.injEq] at hk
      subst hk
      simp only [TrafficPolicy.validateRulesFrom, hv, Nat.add_zero]
    | succ k =>
      obtain ⟨r0, h0, hv0⟩ := hbefore 0 (Nat.succ_pos k)
      simp only [List.getElem?_cons_zero, Option.some.injEq] at h0
      subst h0
      simp only [TrafficPolicy.validateRulesFrom, hv0]
      have hk2 : rest[k]? = some (some rule) := by simpa using hk
      have := ih (i + 1) k rule e hk2
        (fun j hj => by simpa using hbefore (j + 1) (Nat.succ_lt_succ hj)) hv
      rw [this, Nat.add_assoc, Nat.add_comm 1 k]

theorem validateRulesFrom_error_inv (env : Env) (rs : List (Option TrafficRule)) :
    ∀ (i : Nat) (msg : String),
      TrafficPolicy.validateRulesFrom env rs i = Run.ret (some msg) →
      ∃ (k : Nat) (rule : TrafficRule) (e : String),
        rs[k]? = some (some rule) ∧ TrafficRule.Validate env rule = some e ∧
          msg = "rules[" ++ toString (i + k) ++ "]." ++ e := by
  induction rs with
  | nil => intro i msg h; simp [TrafficPolicy.validateRulesFrom] at h
  | cons r rest ih =>
    intro i msg h
    cases r with
    | none => simp [TrafficPolicy.validateRulesFrom] at h
    | some rule =>
      cases hv : TrafficRule.Validate env rule with
      | some e =>
        simp only [TrafficPolicy.validateRulesFrom, hv, Run.ret.injEq,
          Option.some.injEq] at h
        exact ⟨0, rule, e, by simp, hv, h.symm⟩
      | none =>
        simp only [TrafficPolicy.validateRulesFrom, hv] at h
        obtain ⟨k, rule2, e, hk, hv2, hmsg⟩ := ih (i + 1) msg h
        refine ⟨k + 1, rule2, e, by simpa using hk, hv2, ?_⟩
        rw [hmsg, Nat.add_assoc, Nat.add_comm 1 k]

theorem nested_shape (field : String) (r : Option (Option String)) (e : String)
    (h : nested field r = some e) : ∃ inner, e = field ++ "." ++ inner := by
  unfold nested at h
  split at h
  · exact ⟨_, (Option.some.inj h).symm⟩
  · cases h

theorem trafficRule_error_shape (env : Env) (rule : TrafficRule) (e : String)
    (h : TrafficRule.Validate env rule = some e) :
    e = "priority must be in [1..65535]" ∨
      e = "source & destination cannot both be empty" ∨
      e = "target cannot be empty" ∨
      (∃ inner, e = "source" ++ "." ++ inner) ∨
      (∃ inner, e = "destination" ++ "." ++ inner) ∨
      (∃ inner, e = "target." ++ inner) := by
  unfold TrafficRule.Validate at h
  split_ifs at h with h1 h2
  · exact Or.inl (Option.some.inj h).symm
  · exact Or.inr (Or.inl (Option.some.inj h).symm)
  · split at h
    · next e1 he1 =>
      obtain ⟨inner, hin⟩ := nested_shape _ _ _ he1
      exact Or.inr (Or.inr (Or.inr (Or.inl ⟨inner, by rw [← hin]; exact (Option.some.inj h).symm⟩)))
    · split at h
      · next e1 he1 =>
        obtain ⟨inner, hin⟩ := nested_shape _ _ _ he1
        exact Or.inr (Or.inr (Or.inr (Or.inr (Or.inl
          ⟨inner, by rw [← hin]; exact (Option.some.inj h).symm⟩))))
      · split at h
        · exact Or.inr (Or.inr (Or.inl (Option.some.inj h).symm))
        · split at h
          · exact Or.inr (Or.inr (Or.inr (Or.inr (Or.inr ⟨_, (Option.some.inj h).symm⟩))))
          · cases h

/-! ### The address and IMSI loops -/

theorem macFilter_validateFrom_none_iff (env : Env) (macs : List String) :
    ∀ i : Nat, MACFilter.validateFrom env macs i = none ↔
      ∀ mac ∈ macs, env.parseMACErr mac = none := by
  induction macs with
  | nil => intro i; simp [MACFilter.validateFrom]
  | cons mac rest ih =>
    intro i
    cases h : env.parseMACErr mac with
    | none => simp [MACFilter.validateFrom, h, ih (i + 1)]
    | some e => simp [MACFilter.validateFrom, h]

theorem macFilter_validateFrom_some_iff (env : Env) (macs : List String) :
    ∀ (i : Nat) (msg : String), MACFilter.validateFrom env macs i = some msg ↔
      ∃ (k : Nat) (mac e : String), macs[k]? = some mac ∧ env.parseMACErr mac = some e ∧
        (∀ j < k, ∀ m, macs[j]? = some m → env.parseMACErr m = none) ∧
        msg = "mac_addresses[" ++ toString (i + k) ++ "] could not be parsed (" ++ e ++ ")" := by
  induction macs with
  | nil => intro i msg; simp [MACFilter.validateFrom]
  | cons mac rest ih =>
    intro i msg
    cases h : env.parseMACErr mac with
    | some e =>
      simp only [MACFilter.validateFrom, h, Option.some.injEq]
      constructor
      · intro hm
        exact ⟨0, mac, e, by simp, h, fun j hj => absurd hj (Nat.not_lt_zero j), hm.symm⟩
      · rintro ⟨k, m, e2, hk, he2, hbefore, hmsg⟩
        cases k with
        | zero =>
          simp only [List.getElem?_cons_zero, Option.some.injEq] at hk
          subst hk
          rw [h] at he2
          cases he2
          exact hmsg.symm
        | succ k =>
          have := hbefore 0 (Nat.succ_pos k) mac (by simp)
          rw [h] at this
          cases this
    | none =>
      simp only [MACFilter.validateFrom, h]
      rw [ih (i + 1) msg]
      constructor
      · rintro ⟨k, m, e, hk, he, hbefore, hmsg⟩
        refine ⟨k + 1, m, e, by simpa using hk, he, ?_, ?_⟩
        · intro j hj m2 hm2
          cases j with
          | zero =>
            simp only [List.getElem?_cons_zero, Option.some.injEq] at hm2
            subst hm2
            exact h
          | succ j => exact hbefore j (Nat.lt_of_succ_lt_succ hj) m2 (by simpa using hm2)
        · rw [hmsg, Nat.add_assoc, Nat.add_comm 1 k]
      · rintro ⟨k, m, e, hk, he, hbefore, hmsg⟩
        cases k with
        | zero =>
          simp only [List.getElem?_cons_zero, Option.some.injEq] at hk
          subst hk
          rw [h] at he
          cases he
        | succ k =>
          refine ⟨k, m, e, by simpa using hk, he, ?_, ?_⟩
          · intro j hj m2 hm2
            exact hbefore (j + 1) (Nat.succ_lt_succ hj) m2 (by simpa using hm2)
          · rw [hmsg, Nat.add_assoc, Nat.add_comm 1 k]

theorem validateIMSIsFrom_shape (imsis : List String) :
    ∀ (i : Nat) (msg : String), GTPFilter.validateIMSIsFrom imsis i = some msg →
      ∃ k : Nat, msg = "imsis[" ++ toString k ++ "] must be 14 or 15 digits" := by
  induction imsis with
  | nil => intro i msg h; simp [GTPFilter.validateIMSIsFrom] at h
  | cons imsi rest ih =>
    intro i msg h
    unfold GTPFilter.validateIMSIsFrom at h
    split_ifs at h with h1 h2
    · exact ⟨i, (Option.some.inj h).symm⟩
    · exact ih (i + 1) msg h
    · exact ⟨i, (Option.some.inj h).symm⟩

/-! ### The authority -/

theorem loadOrCreateKey_inv (sys : Sys) (w w1 : World) (key : PrivateKey)
    (h : loadOrCreateKey sys w = (Except.ok key, w1)) :
    w1.keyFile = some key ∧ w1.certFile = w.certFile := by
  unfold loadOrCreateKey at h
  split at h
  · next k hk =>
    simp only [Prod.mk.injEq, Except.ok.injEq] at h
    obtain ⟨rfl, rfl⟩ := h
    exact ⟨hk, rfl⟩
  · split at h
    · simp at h
    · split at h
      · simp at h
      · simp only [Prod.mk.injEq, Except.ok.injEq] at h
        obtain ⟨rfl, rfl⟩ := h
        exact ⟨rfl, rfl⟩

theorem generateRootCA_keyFile (sys : Sys) (key : PrivateKey) (w : World) :
    (generateRootCA sys key w).2.keyFile = w.keyFile := by
  unfold generateRootCA
  split
  · rfl
  · dsimp only
    split <;> rfl

theorem loadOrCreateCert_keyFile (sys : Sys) (key : PrivateKey) (w : World) :
    (loadOrCreateCert sys key w).2.keyFile = w.keyFile := by
  have hg := generateRootCA_keyFile sys key w
  unfold loadOrCreateCert
  split
  · rfl
  · split
    · next e w1 h1 => rw [h1] at hg; exact hg
    · next cert w1 h1 =>
      rw [h1] at hg
      split <;> exact hg

theorem loadOrCreateCert_fresh (sys : Sys) (hx : X509Consistent sys) (pub : PublicKey)
    (w w2 : World) (c : Certificate) (b : Bytes) (hc : w.certFile = none)
    (hm : sys.marshalPKIXPublicKey pub = Except.ok b)
    (h : loadOrCreateCert sys (PrivateKey.signer pub) w =
      (Proc.ret (Except.ok (some c)), w2)) :
    c.RawSubjectPublicKeyInfo = b := by
  unfold loadOrCreateCert at h
  rw [hc] at h
  simp only at h
  split at h
  · simp at h
  · next cert w1 h1 =>
    have hcert : cert = some c := by
      split at h <;> simp at h
      exact h.1
    subst hcert
    unfold generateRootCA at h1
    simp only at h1
    split at h1
    · simp [wrap] at h1
    · next der hder =>
      cases hp : sys.parseCertificate der with
      | error e => simp [hp, certResult] at h1
      | ok c2 =>
        simp only [hp, certResult, Prod.mk.injEq, Option.some.injEq, and_true] at h1
        rw [← h1.1]
        exact hx _ _ _ _ _ _ _ _ hder hp hm

theorem loadOrCreateKey_loaded (sys : Sys) (w : World) (key : PrivateKey)
    (hk : w.keyFile = some key) : loadOrCreateKey sys w = (Except.ok key, w) := by
  unfold loadOrCreateKey
  rw [hk]

/-- A call that finds the key of a signer in place and no certificate returns
without calling itself. -/
theorem InitRootCA_reentered (sys : Sys) (hx : X509Consistent sys) (w : World)
    (pub : PublicKey) (b : Bytes) (hk : w.keyFile = some (PrivateKey.signer pub))
    (hc : w.certFile = none) (hm : sys.marshalPKIXPublicKey pub = Except.ok b) :
    ∃ r, ∀ n : Nat, InitRootCA sys (n + 1) w = some r := by
  have hkey : loadOrCreateKey sys (w.advance 1) =
      (Except.ok (PrivateKey.signer pub), w.advance 1) :=
    loadOrCreateKey_loaded sys _ _ hk
  simp only [InitRootCA, hkey, hm]
  cases sys.mkdirAllErr w.tick with
  | some e => exact ⟨_, fun _ => rfl⟩
  | none =>
    rcases hcert : loadOrCreateCert sys (PrivateKey.signer pub) (w.advance 1) with ⟨r, w2⟩
    rcases r with r | code | _
    · rcases r with e | cert
      · exact ⟨_, fun _ => rfl⟩
      · rcases cert with _ | c
        · exact ⟨_, fun _ => rfl⟩
        · have hspki := loadOrCreateCert_fresh sys hx pub (w.advance 1) w2 c b hc hm hcert
          simp only [hspki, ne_eq, not_true_eq_false, if_false]
          exact ⟨_, fun _ => rfl⟩
    · exact ⟨_, fun _ => rfl⟩
    · exact ⟨_, fun _ => rfl⟩

theorem InitRootCA_two_levels_aux (sys : Sys) (hx : X509Consistent sys) (w : World)
    (n : Nat) :
    ∃ r, InitRootCA sys (n + 1 + 1) w = some r ∧ InitRootCA sys (0 + 1 + 1) w = some r := by
  rw [InitRootCA.eq_2 sys w (n + 1), InitRootCA.eq_2 sys w (0 + 1)]
  cases sys.mkdirAllErr w.tick with
  | some e => exact ⟨_, rfl, rfl⟩
  | none =>
    rcases hkey : loadOrCreateKey sys (w.advance 1) with ⟨rk, w1⟩
    rcases rk with e | key
    · exact ⟨_, rfl, rfl⟩
    · have hk1 := (loadOrCreateKey_inv sys _ _ _ hkey).1
      dsimp only
      rcases hcert : loadOrCreateCert sys key w1 with ⟨r, w2⟩
      have hk2 : w2.keyFile = some key := by
        have := loadOrCreateCert_keyFile sys key w1
        rw [hcert] at this
        exact this.trans hk1
      rcases r with r | code | _
      · rcases r with e | cert
        · exact ⟨_, rfl, rfl⟩
        · rcases key with pub | ty
          · dsimp only
            rcases hm : sys.marshalPKIXPublicKey pub with e | b
            · exact ⟨_, rfl, rfl⟩
            · rcases cert with _ | c
              · exact ⟨_, rfl, rfl⟩
              · dsimp only
                by_cases hne : c.RawSubjectPublicKeyInfo ≠ b
                · simp only [if_pos hne]
                  cases sys.removeErr w2.tick with
                  | some e => exact ⟨_, rfl, rfl⟩
                  | none =>
                    dsimp only
                    obtain ⟨r, hr⟩ := InitRootCA_reentered sys hx
                      { w2 with certFile := none, tick := w2.tick + 1 } pub b hk2 rfl hm
                    exact ⟨r, hr n, hr 0⟩
                · simp only [if_neg hne]
                  exact ⟨_, rfl, rfl⟩
          · exact ⟨_, rfl, rfl⟩
      · exact ⟨_, rfl, rfl⟩
      · exact ⟨_, rfl, rfl⟩

/-- Two levels of calls are always enough. -/
theorem InitRootCA_two_levels (sys : Sys) (hx : X509Consistent sys) (w : World) :
    ∃ r, ∀ n : Nat, InitRootCA sys (n + 2) w = some r := by
  obtain ⟨r, hr, -⟩ := InitRootCA_two_levels_aux sys hx w 0
  refine ⟨r, fun n => ?_⟩
  obtain ⟨r2, h1, h2⟩ := InitRootCA_two_levels_aux sys hx w n
  rw [hr] at h2
  rw [Option.some.inj h2]
  exact h1

/-- What a successful `InitRootCA` returns: the key of a signer, a certificate
whose `RawSubjectPublicKeyInfo` is the PKIX encoding of that key's public half,
and, when the key file held a key, that key. -/
theorem InitRootCA_returned (sys : Sys) :
    ∀ (fuel : Nat) (w w2 : World) (ca : RootCA) (err : Option String),
      InitRootCA sys fuel w = some (Proc.ret (some ca, err), w2) →
      (∃ (pub : PublicKey) (c : Certificate), ca.Key = PrivateKey.signer pub ∧
        ca.Cert = some c ∧
        sys.marshalPKIXPublicKey pub = Except.ok c.RawSubjectPublicKeyInfo) ∧
      (∀ k, w.keyFile = some k → ca.Key = k) := by
  intro fuel
  induction fuel with
  | zero => intro w w2 ca err h; simp [InitRootCA] at h
  | succ fuel ih =>
    intro w w2 ca err h
    rw [InitRootCA.eq_2] at h
    cases hmk : sys.mkdirAllErr w.tick with
    | some e => simp [hmk] at h
    | none =>
      rw [hmk] at h
      dsimp only at h
      rcases hkey : loadOrCreateKey sys (w.advance 1) with ⟨rk, w1⟩
      rw [hkey] at h
      rcases rk with e | key
      · simp at h
      · have hk1 := (loadOrCreateKey_inv sys _ _ _ hkey).1
        have hkw : ∀ k, w.keyFile = some k → key = k := by
          intro k hk
          have := loadOrCreateKey_loaded sys (w.advance 1) k hk
          rw [hkey] at this
          simp only [Prod.mk.injEq, Except.ok.injEq] at this
          exact this.1
        dsimp only at h
        rcases hcert : loadOrCreateCert sys key w1 with ⟨r, w3⟩
        have hk3 : w3.keyFile = some key := by
          have := loadOrCreateCert_keyFile sys key w1
          rw [hcert] at this
          exact this.trans hk1
        rw [hcert] at h
        rcases r with r | code | _
        · rcases r with e | cert
          · simp at h
          · rcases key with pub | ty
            · dsimp only at h
              rcases hm : sys.marshalPKIXPublicKey pub with e | b
              · simp [hm] at h
              · rw [hm] at h
                rcases cert with _ | c
                · simp at h
                · dsimp only at h
                  by_cases hne : c.RawSubjectPublicKeyInfo ≠ b
                  · rw [if_pos hne] at h
                    cases hrm : sys.removeErr w3.tick with
                    | some e => simp [hrm] at h
                    | none =>
                      rw [hrm] at h
                      dsimp only at h
                      obtain ⟨h1, h2⟩ := ih _ _ _ _ h
                      have hkk := h2 _ hk3
                      exact ⟨h1, fun k hk => hkk.trans (hkw k hk)⟩
                  · rw [if_neg hne] at h
                    simp only [Option.some.injEq, Prod.mk.injEq, Proc.ret.injEq] at h
                    obtain ⟨⟨rfl, -⟩, -⟩ := h
                    have heq : c.RawSubjectPublicKeyInfo = b := by
                      by_contra hc
                      exact hne hc
                    exact ⟨⟨pub, c, rfl, rfl, by rw [heq]; exact hm⟩, hkw⟩
            · simp at h
        · simp at h
        · simp at h

/-! ### The TLS set-up -/

theorem newTLSCert_signer (sys : Sys) (ca : RootCA) (c : Certificate) (pub : PublicKey)
    (sni : String) (eku : List ExtKeyUsage) (w : World) (hc : ca.Cert = some c) :
    (∃ e, (RootCA.newTLSCert sys ca (PrivateKey.signer pub) sni eku w).1 =
        Proc.ret (none, some e)) ∨
      (∃ leaf, (RootCA.newTLSCert sys ca (PrivateKey.signer pub) sni eku w).1 =
        Proc.ret (some leaf, none)) := by
  unfold RootCA.newTLSCert
  simp only [hc]
  cases sys.createCertificate (w.tick + 2) (tlsCertTemplate sys w.tick c sni eku) c pub
      ca.Key with
  | error e => exact Or.inl ⟨_, rfl⟩
  | ok der =>
    dsimp only
    cases sys.parseCertificate der with
    | error e => exact Or.inl ⟨_, rfl⟩
    | ok leaf => exact Or.inr ⟨_, rfl⟩

theorem tlsKeyChainRoots_cases (sys : Sys)
    (issue : PrivateKey → String → World → Proc (Option Certificate × Option String) × World)
    (ca : RootCA) (c : Certificate) (sni : String) (w : World) (hc : ca.Cert = some c)
    (hissue : ∀ pub w1, (∃ e, (issue (PrivateKey.signer pub) sni w1).1 =
        Proc.ret (none, some e)) ∨
      (∃ leaf, (issue (PrivateKey.signer pub) sni w1).1 = Proc.ret (some leaf, none))) :
    (tlsKeyChainRoots sys issue ca sni w).1 = Proc.exit 1 ∨
      ∃ cert, (tlsKeyChainRoots sys issue ca sni w).1 = Proc.ret (cert, [c]) := by
  unfold tlsKeyChainRoots
  cases sys.generateKey w.tick with
  | error e => exact Or.inl rfl
  | ok pub =>
    dsimp only
    rcases hi : issue (PrivateKey.signer pub) sni (w.advance 1) with ⟨r, w1⟩
    have h := hissue pub (w.advance 1)
    rw [hi] at h
    rcases h with ⟨e, he⟩ | ⟨leaf, hl⟩
    · simp only at he
      subst he
      exact Or.inl rfl
    · simp only at hl
      subst hl
      refine Or.inr
        ⟨TLSCertificate.mk [leaf.Raw, c.Raw] (PrivateKey.signer pub) (some leaf), ?_⟩
      simp only [RootCA.CAChain, hc, rawChain, List.length_singleton, Nat.sub_self,
        List.getElem?_cons_zero]

theorem newTLSConf_cases (sys : Sys) (ca : RootCA) (c : Certificate) (sni : String)
    (w : World) (hc : ca.Cert = some c) :
    (newTLSConf sys ca sni w).1 = Proc.exit 1 ∨
      ∃ cert, (newTLSConf sys ca sni w).1 = Proc.ret
        { Certificates := [cert], ClientCAs := some [c], MinVersion := versionTLS12,
          CipherSuites := [tlsEcdheEcdsaWithAes128GcmSha256] } := by
  unfold newTLSConf
  rcases h : tlsKeyChainRoots sys (RootCA.NewTLSServerCert sys ca) ca sni w with ⟨r, w1⟩
  have hcases := tlsKeyChainRoots_cases sys (RootCA.NewTLSServerCert sys ca) ca c sni w hc
    (fun pub w1 => newTLSCert_signer sys ca c pub sni _ w1 hc)
  rw [h] at hcases
  rcases hcases with he | ⟨cert, hr⟩
  · simp only at he
    subst he
    exact Or.inl rfl
  · simp only at hr
    subst hr
    exact Or.inr ⟨cert, rfl⟩

theorem newClientTLSConf_cases (sys : Sys) (ca : RootCA) (c : Certificate) (sni : String)
    (w : World) (hc : ca.Cert = some c) :
    (newClientTLSConf sys ca sni w).1 = Proc.exit 1 ∨
      ∃ cert, (newClientTLSConf sys ca sni w).1 = Proc.ret
        { Certificates := [cert], RootCAs := some [c], MinVersion := versionTLS12,
          CipherSuites := [tlsEcdheEcdsaWithAes128GcmSha256] } := by
  unfold newClientTLSConf
  rcases h : tlsKeyChainRoots sys (RootCA.NewTLSClientCert sys ca) ca sni w with ⟨r, w1⟩
  have hcases := tlsKeyChainRoots_cases sys (RootCA.NewTLSClientCert sys ca) ca c sni w hc
    (fun pub w1 => newTLSCert_signer sys ca c pub sni _ w1 hc)
  rw [h] at hcases
  rcases hcases with he | ⟨cert, hr⟩
  · simp only at he
    subst he
    exact Or.inl rfl
  · simp only at hr
    subst hr
    exact Or.inr ⟨cert, rfl⟩

theorem newTLSConf_ret (sys : Sys) (ca : RootCA) (sni : String) (w w1 : World)
    (conf : TLSConfig) (h : newTLSConf sys ca sni w = (Proc.ret conf, w1)) :
    conf.MinVersion = versionTLS12 ∧
      conf.CipherSuites = [tlsEcdheEcdsaWithAes128GcmSha256] := by
  unfold newTLSConf at h
  split at h
  · simp at h
  · simp at h
  · simp only [Prod.mk.injEq, Proc.ret.injEq] at h
    rw [← h.1]
    exact ⟨rfl, rfl⟩

theorem newClientTLSConf_ret (sys : Sys) (ca : RootCA) (sni : String) (w w1 : World)
    (conf : TLSConfig) (h : newClientTLSConf sys ca sni w = (Proc.ret conf, w1)) :
    conf.MinVersion = versionTLS12 ∧
      conf.CipherSuites = [tlsEcdheEcdsaWithAes128GcmSha256] := by
  unfold newClientTLSConf at h
  split at h
  · simp at h
  · simp at h
  · simp only [Prod.mk.injEq, Proc.ret.injEq] at h
    rw [← h.1]
    exact ⟨rfl, rfl⟩

theorem getGRPCTLS_ret (sys : Sys) (ca : RootCA) (w w2 : World)
    (cb : String → Option TLSConfig × Option String)
    (h : getGRPCTLS sys ca w = (Proc.ret cb, w2)) :
    ∃ (conf1 conf2 : TLSConfig) (w1 : World),
      newTLSConf sys ca grpcSNI w = (Proc.ret conf1, w1) ∧
      newTLSConf sys ca grpcEnrollmentSNI w1 = (Proc.ret conf2, w2) ∧
      cb = grpcConfigForClient
        { conf1 with NextProtos := ["h2"],
                     ClientAuth := ClientAuthType.RequireAndVerifyClientCert }
        { conf2 with NextProtos := ["h2"], ClientAuth := ClientAuthType.NoClientCert } := by
  unfold getGRPCTLS at h
  split at h
  · simp at h
  · simp at h
  · next conf1 w1 h1 =>
    dsimp only at h
    split at h
    · simp at h
    · simp at h
    · next conf2 w3 h2 =>
      simp only [Prod.mk.injEq, Proc.ret.injEq] at h
      obtain ⟨hcb, rfl⟩ := h
      exact ⟨conf1, conf2, w1, h1, h2, hcb.symm⟩

theorem grpcConfigForClient_known (sc ec : TLSConfig) :
    grpcConfigForClient sc ec grpcSNI = (some sc, none) ∧
      grpcConfigForClient sc ec grpcEnrollmentSNI = (some ec, none) := by
  unfold grpcConfigForClient
  exact ⟨by rw [if_pos rfl], by rw [if_neg (by decide), if_pos rfl]⟩

theorem fixtureSys_consistent : X509Consistent fixtureSys := by
  intro t template parent pub priv der c b h1 h2 h3
  cases priv with
  | other ty => simp [fixtureSys] at h1
  | signer p =>
    simp only [fixtureSys, Except.ok.injEq] at h1 h2 h3
    subst h1
    simp only [Except.ok.injEq] at h2
    subst h2
    exact h3

/-! ### Validity and the conversion to protobuf -/

theorem validateRulesFrom_ok_inv (env : Env) (rs : List (Option TrafficRule)) :
    ∀ i : Nat, TrafficPolicy.validateRulesFrom env rs i = Run.ret none →
      ∀ r ∈ rs, ∃ rule, r = some rule ∧ TrafficRule.Validate env rule = none := by
  induction rs with
  | nil => intro i _ r hr; simp at hr
  | cons r0 rest ih =>
    intro i h r hr
    cases r0 with
    | none => simp [TrafficPolicy.validateRulesFrom] at h
    | some rule0 =>
      cases hv : TrafficRule.Validate env rule0 with
      | some e => simp [TrafficPolicy.validateRulesFrom, hv] at h
      | none =>
        simp only [TrafficPolicy.validateRulesFrom, hv] at h
        rcases List.mem_cons.mp hr with rfl | hr
        · exact ⟨rule0, rfl, hv⟩
        · exact ih (i + 1) h r hr

theorem policy_valid_rules (env : Env) (tp : TrafficPolicy)
    (h : TrafficPolicy.Validate env tp = Run.ret none) :
    ∀ r ∈ tp.Rules, ∃ rule, r = some rule ∧ TrafficRule.Validate env rule = none := by
  unfold TrafficPolicy.Validate at h
  split_ifs at h with h1 h2 h3
  · simp at h
  · simp at h
  · simp at h
  · exact validateRulesFrom_ok_inv env tp.Rules 0 h

theorem trafficTarget_valid_action (env : Env) (t : TrafficTarget)
    (h : TrafficTarget.Validate env t = none) :
    t.Action = "accept" ∨ t.Action = "reject" ∨ t.Action = "drop" := by
  unfold TrafficTarget.Validate at h
  split_ifs at h with ha
  exact ha

theorem trafficRule_valid_target (env : Env) (r : TrafficRule)
    (h : TrafficRule.Validate env r = none) :
    ∃ t, r.Target = some t ∧ TrafficTarget.Validate env t = none := by
  unfold TrafficRule.Validate at h
  split_ifs at h with h1 h2
  split at h
  · cases h
  · split at h
    · cases h
    · split at h
      · cases h
      · next tt htt =>
        split at h
        · cases h
        · next hv => exact ⟨tt, htt, hv⟩

theorem toPBTargetAction_valid (action : String)
    (h : action = "accept" ∨ action = "reject" ∨ action = "drop") :
    ∃ a, toPBTargetAction action = Run.ret a := by
  unfold toPBTargetAction
  rcases h with h | h | h <;> subst h
  · exact ⟨_, by rw [if_pos rfl]⟩
  · exact ⟨_, by rw [if_neg (by decide), if_pos rfl]⟩
  · exact ⟨_, by rw [if_neg (by decide), if_neg (by decide), if_pos rfl]⟩

theorem toPBTrafficRule_valid (env : Env) (r : TrafficRule)
    (h : TrafficRule.Validate env r = none) :
    ∃ pb, toPBTrafficRule (some r) = Run.ret pb := by
  obtain ⟨t, ht, hv⟩ := trafficRule_valid_target env r h
  obtain ⟨a, ha⟩ := toPBTargetAction_valid t.Action (trafficTarget_valid_action env t hv)
  simp only [toPBTrafficRule, toPBTrafficTarget, ht, ha]
  exact ⟨_, rfl⟩

theorem toPBTrafficRules_valid (env : Env) (rs : List (Option TrafficRule)) :
    ∀ acc : List (Option PBTrafficRule),
      (∀ r ∈ rs, ∃ rule, r = some rule ∧ TrafficRule.Validate env rule = none) →
      ∃ pbs : List (Option PBTrafficRule), toPBTrafficRules rs acc = Run.ret (acc ++ pbs) ∧
        pbs.length = rs.length ∧
        ∀ i : Nat, i < rs.length → ∃ pb, pbs[i]? = some (some pb) ∧
          toPBTrafficRule (rs[i]?.getD none) = Run.ret pb := by
  induction rs with
  | nil =>
    intro acc _
    exact ⟨[], by simp [toPBTrafficRules], rfl, fun i hi => absurd hi (Nat.not_lt_zero i)⟩
  | cons r rest ih =>
    intro acc h
    obtain ⟨rule, rfl, hv⟩ := h r (by simp)
    obtain ⟨pb, hpb⟩ := toPBTrafficRule_valid env rule hv
    obtain ⟨pbs, h1, h2, h3⟩ := ih (acc ++ [some pb]) (fun r hr => h r (by simp [hr]))
    refine ⟨some pb :: pbs, ?_, by simp [h2], ?_⟩
    · simp only [toPBTrafficRules, hpb, h1, List.append_assoc, List.singleton_append]
    · intro i hi
      cases i with
      | zero => exact ⟨pb, by simp, by simpa using hpb⟩
      | succ i =>
        obtain ⟨pb2, hp1, hp2⟩ := h3 i (by simpa using hi)
        exact ⟨pb2, by simpa using hp1, by simpa using hp2⟩

theorem toUint32_inj (a b : Int) (ha0 : 0 ≤ a) (ha : a < 2 ^ 32) (hb0 : 0 ≤ b)
    (hb : b < 2 ^ 32) (h : toUint32 a = toUint32 b) : a = b := by
  unfold toUint32 at h
  rw [Int.emod_eq_of_lt ha0 ha, Int.emod_eq_of_lt hb0 hb] at h
  omega

theorem ipFilter_valid_bounds (env : Env) (f : IPFilter)
    (h : IPFilter.Validate env f = none) :
    (0 ≤ f.Mask ∧ f.Mask ≤ 128) ∧ (0 ≤ f.BeginPort ∧ f.BeginPort ≤ 65535) ∧
      (0 ≤ f.EndPort ∧ f.EndPort ≤ 65535) ∧
      (f.Protocol = "tcp" ∨ f.Protocol = "udp" ∨ f.Protocol = "icmp" ∨
        f.Protocol = "sctp" ∨ f.Protocol = "all") := by
  unfold IPFilter.Validate at h
  split_ifs at h with h1 h2 h3 h4 h5 h6
  exact ⟨by omega, by omega, by omega, h6⟩

theorem gtpFilter_valid_mask (env : Env) (g : GTPFilter)
    (h : GTPFilter.Validate env g = none) : 0 ≤ g.Mask ∧ g.Mask ≤ 128 := by
  unfold GTPFilter.Validate at h
  split_ifs at h with h1 h2 h3
  omega

theorem ipModifier_valid_port (env : Env) (m : IPModifier)
    (h : IPModifier.Validate env m = none) : 1 ≤ m.Port ∧ m.Port ≤ 65535 := by
  unfold IPModifier.Validate at h
  split_ifs at h with h1 h2
  omega

theorem nested_none (field : String) (r : Option String)
    (h : nested field (some r) = none) : r = none := by
  cases r with
  | none => rfl
  | some e => simp [nested] at h

theorem trafficSelector_valid_parts (env : Env) (s : TrafficSelector)
    (h : TrafficSelector.Validate env s = none) :
    (∀ f, s.IP = some f → IPFilter.Validate env f = none) ∧
      (∀ g, s.GTP = some g → GTPFilter.Validate env g = none) := by
  unfold TrafficSelector.Validate at h
  split_ifs at h with h0
  split at h
  · cases h
  · split at h
    · cases h
    · next h1 h2 =>
      constructor
      · intro f hf
        rw [hf] at h2
        exact nested_none _ _ h2
      · intro g hg
        rw [hg] at h
        exact nested_none _ _ h

theorem trafficTarget_valid_ip (env : Env) (t : TrafficTarget)
    (h : TrafficTarget.Validate env t = none) :
    ∀ p, t.IP = some p → IPModifier.Validate env p = none := by
  unfold TrafficTarget.Validate at h
  split_ifs at h with ha
  split at h
  · cases h
  · intro p hp
    rw [hp] at h
    exact nested_none _ _ h

theorem trafficRule_valid_parts (env : Env) (r : TrafficRule)
    (h : TrafficRule.Validate env r = none) :
    (1 ≤ r.Priority ∧ r.Priority ≤ 65535) ∧
      (∀ s, r.Source = some s → TrafficSelector.Validate env s = none) ∧
      (∀ d, r.Destination = some d → TrafficSelector.Validate env d = none) := by
  unfold TrafficRule.Validate at h
  split_ifs at h with h1 h2
  split at h
  · cases h
  · next hs =>
    split at h
    · cases h
    · next hd =>
      refine ⟨by omega, ?_, ?_⟩
      · intro s hsrc
        rw [hsrc] at hs
        exact nested_none _ _ hs
      · intro d hdst
        rw [hdst] at hd
        exact nested_none _ _ hd

theorem protocol_rewrite_inj (p q : String)
    (hp : p = "tcp" ∨ p = "udp" ∨ p = "icmp" ∨ p = "sctp" ∨ p = "all")
    (hq : q = "tcp" ∨ q = "udp" ∨ q = "icmp" ∨ q = "sctp" ∨ q = "all")
    (h : (if p ≠ "all" then p else "") = (if q ≠ "all" then q else "")) : p = q := by
  rcases hp with rfl | rfl | rfl | rfl | rfl <;>
    rcases hq with rfl | rfl | rfl | rfl | rfl <;>
    first
      | rfl
      | exact absurd h (by decide)

theorem toPBIPFilter_inj (env : Env) (a b : IPFilter)
    (ha : IPFilter.Validate env a = none) (hb : IPFilter.Validate env b = none)
    (h : toPBIPFilter (some a) = toPBIPFilter (some b)) : a = b := by
  obtain ⟨am, abp, aep, ap⟩ := ipFilter_valid_bounds env a ha
  obtain ⟨bm, bbp, bep, bp⟩ := ipFilter_valid_bounds env b hb
  simp only [toPBIPFilter, Option.some.injEq, PBIPFilter.mk.injEq] at h
  obtain ⟨h1, h2, h3, h4, h5⟩ := h
  have e2 := toUint32_inj _ _ am.1 (by omega) bm.1 (by omega) h2
  have e3 := toUint32_inj _ _ abp.1 (by omega) bbp.1 (by omega) h3
  have e4 := toUint32_inj _ _ aep.1 (by omega) bep.1 (by omega) h4
  have e5 := protocol_rewrite_inj _ _ ap bp h5
  cases a
  cases b
  simp only at h1 e2 e3 e4 e5
  subst h1 e2 e3 e4 e5
  rfl

theorem toPBGTPFilter_inj (env : Env) (a b : GTPFilter)
    (ha : GTPFilter.Validate env a = none) (hb : GTPFilter.Validate env b = none)
    (h : toPBGTPFilter (some a) = toPBGTPFilter (some b)) : a = b := by
  have am := gtpFilter_valid_mask env a ha
  have bm := gtpFilter_valid_mask env b hb
  simp only [toPBGTPFilter, Option.some.injEq, PBGTPFilter.mk.injEq] at h
  obtain ⟨h1, h2, h3⟩ := h
  have e2 := toUint32_inj _ _ am.1 (by omega) bm.1 (by omega) h2
  cases a
  cases b
  simp only at h1 e2 h3
  subst h1 e2 h3
  rfl

theorem toPBMACFilter_inj (a b : Option MACFilter)
    (h : toPBMACFilter a = toPBMACFilter b) : a = b := by
  cases a with
  | none =>
    cases b with
    | none => rfl
    | some y => simp [toPBMACFilter] at h
  | some x =>
    cases b with
    | none => simp [toPBMACFilter] at h
    | some y =>
      cases x
      cases y
      simpa [toPBMACFilter] using h

theorem toPBMACModifier_inj (a b : Option MACModifier)
    (h : toPBMACModifier a = toPBMACModifier b) : a = b := by
  cases a with
  | none =>
    cases b with
    | none => rfl
    | some y => simp [toPBMACModifier] at h
  | some x =>
    cases b with
    | none => simp [toPBMACModifier] at h
    | some y =>
      cases x
      cases y
      simpa [toPBMACModifier] using h

theorem toPBIPFilter_opt_inj (env : Env) (a b : Option IPFilter)
    (ha : ∀ f, a = some f → IPFilter.Validate env f = none)
    (hb : ∀ f, b = some f → IPFilter.Validate env f = none)
    (h : toPBIPFilter a = toPBIPFilter b) : a = b := by
  cases a with
  | none =>
    cases b with
    | none => rfl
    | some y => simp [toPBIPFilter] at h
  | some x =>
    cases b with
    | none => simp [toPBIPFilter] at h
    | some y => rw [toPBIPFilter_inj env x y (ha x rfl) (hb y rfl) h]

theorem toPBGTPFilter_opt_inj (env : Env) (a b : Option GTPFilter)
    (ha : ∀ g, a = some g → GTPFilter.Validate env g = none)
    (hb : ∀ g, b = some g → GTPFilter.Validate env g = none)
    (h : toPBGTPFilter a = toPBGTPFilter b) : a = b := by
  cases a with
  | none =>
    cases b with
    | none => rfl
    | some y => simp [toPBGTPFilter] at h
  | some x =>
    cases b with
    | none => simp [toPBGTPFilter] at h
    | some y => rw [toPBGTPFilter_inj env x y (ha x rfl) (hb y rfl) h]

theorem toPBIPModifier_opt_inj (env : Env) (a b : Option IPModifier)
    (ha : ∀ m, a = some m → IPModifier.Validate env m = none)
    (hb : ∀ m, b = some m → IPModifier.Validate env m = none)
    (h : toPBIPModifier a = toPBIPModifier b) : a = b := by
  cases a with
  | none =>
    cases b with
    | none => rfl
    | some y => simp [toPBIPModifier] at h
  | some x =>
    cases b with
    | none => simp [toPBIPModifier] at h
    | some y =>
      have px := ipModifier_valid_port env x (ha x rfl)
      have py := ipModifier_valid_port env y (hb y rfl)
      simp only [toPBIPModifier, Option.some.injEq, PBIPModifier.mk.injEq] at h
      have e2 := toUint32_inj _ _ (by omega) (by omega) (by omega) (by omega) h.2
      have e1 := h.1
      cases x
      cases y
      simp only at e1 e2
      subst e1 e2
      rfl

theorem toPBTrafficSelector_opt_inj (env : Env) (a b : Option TrafficSelector)
    (ha : ∀ s, a = some s → TrafficSelector.Validate env s = none)
    (hb : ∀ s, b = some s → TrafficSelector.Validate env s = none)
    (h : toPBTrafficSelector a = toPBTrafficSelector b) : a = b := by
  cases a with
  | none =>
    cases b with
    | none => rfl
    | some y => simp [toPBTrafficSelector] at h
  | some x =>
    cases b with
    | none => simp [toPBTrafficSelector] at h
    | some y =>
      obtain ⟨xi, xg⟩ := trafficSelector_valid_parts env x (ha x rfl)
      obtain ⟨yi, yg⟩ := trafficSelector_valid_parts env y (hb y rfl)
      simp only [toPBTrafficSelector, Option.some.injEq, PBTrafficSelector.mk.injEq] at h
      obtain ⟨h1, h2, h3, h4⟩ := h
      have e2 := toPBMACFilter_inj _ _ h2
      have e3 := toPBIPFilter_opt_inj env _ _ xi yi h3
      have e4 := toPBGTPFilter_opt_inj env _ _ xg yg h4
      cases x
      cases y
      simp only at h1 e2 e3 e4
      subst h1 e2 e3 e4
      rfl

theorem toPBTargetAction_inj (p q : String) (a : PBTargetAction)
    (hp : toPBTargetAction p = Run.ret a) (hq : toPBTargetAction q = Run.ret a) :
    p = q := by
  unfold toPBTargetAction at hp hq
  split_ifs at hp with p1 p2 p3 <;> split_ifs at hq with q1 q2 q3 <;>
    simp only [Run.ret.injEq] at hp hq <;> subst hp <;>
    first
      | exact absurd hq (by decide)
      | (simp_all)

theorem toPBTrafficTarget_inj (env : Env) (x y : TrafficTarget)
    (hx : TrafficTarget.Validate env x = none) (hy : TrafficTarget.Validate env y = none)
    (h : toPBTrafficTarget (some x) = toPBTrafficTarget (some y)) : x = y := by
  obtain ⟨ax, hax⟩ := toPBTargetAction_valid x.Action (trafficTarget_valid_action env x hx)
  obtain ⟨ay, hay⟩ := toPBTargetAction_valid y.Action (trafficTarget_valid_action env y hy)
  simp only [toPBTrafficTarget, hax, hay, Run.ret.injEq, Option.some.injEq,
    PBTrafficTarget.mk.injEq] at h
  obtain ⟨h1, h2, h3, h4⟩ := h
  subst h2
  have e2 := toPBTargetAction_inj _ _ _ hax hay
  have e3 := toPBMACModifier_inj _ _ h3
  have e4 := toPBIPModifier_opt_inj env _ _ (trafficTarget_valid_ip env x hx)
    (trafficTarget_valid_ip env y hy) h4
  cases x
  cases y
  simp only at h1 e2 e3 e4
  subst h1 e2 e3 e4
  rfl

/-! ### Issuing certificates -/

theorem newTLSCert_signTemplate (sys : Sys) (ca : RootCA) (caCert : Certificate)
    (pub : PublicKey) (sni : String) (eku : List ExtKeyUsage) (w : World)
    (hc : ca.Cert = some caCert) :
    (RootCA.newTLSCert sys ca (PrivateKey.signer pub) sni eku w).1 =
      signTemplate sys (w.tick + 2) (tlsCertTemplate sys w.tick caCert sni eku) caCert pub
        ca.Key := by
  unfold RootCA.newTLSCert signTemplate
  simp only [hc]
  cases sys.createCertificate (w.tick + 2) (tlsCertTemplate sys w.tick caCert sni eku)
    caCert pub ca.Key <;> rfl

/-! ### The lifecycle client and the bulk update -/

theorem errorsWrap_some (e : GoError) (msg : String) :
    ∃ r, errorsWrap (some e) msg = some r ∧ r.Error = msg ++ ": " ++ e.Error ∧
      r.Cause = e.Cause ∧ (∀ m, e = GoError.plain m → r.Cause = e) := by
  refine ⟨GoError.wrapped e msg, rfl, rfl, rfl, ?_⟩
  intro m hm
  subst hm
  rfl

theorem hasInterface_iff (ifs : List NetworkInterface) (i : String) :
    hasInterface ifs i = true ↔ i ∈ ifs.map NetworkInterface.ID := by
  unfold hasInterface
  simp only [List.any_eq_true, beq_iff_eq, List.mem_map]

theorem validateInterfaces_none (request : List NetworkInterface) :
    ∀ i : Nat, validateInterfaces request i = none ↔
      ∀ r ∈ request, NetworkInterface.Validate r = none := by
  induction request with
  | nil =>
    intro i
    simp [validateInterfaces]
  | cons n rest ih =>
    intro i
    unfold validateInterfaces
    cases hn : NetworkInterface.Validate n with
    | some e => simp [hn]
    | none => simp [hn, ih (i + 1)]

theorem validateInterfaces_some (request : List NetworkInterface) :
    ∀ (i : Nat) (msg : String), validateInterfaces request i = some msg →
      ∃ (j : Nat) (r : NetworkInterface) (e : String),
        request[j]? = some r ∧ NetworkInterface.Validate r = some e ∧
        msg = "Validation failed: network_interfaces[" ++ toString (i + j) ++ "]." ++ e ∧
        ∀ r2 ∈ request.take j, NetworkInterface.Validate r2 = none := by
  induction request with
  | nil =>
    intro i msg h
    simp [validateInterfaces] at h
  | cons n rest ih =>
    intro i msg h
    unfold validateInterfaces at h
    cases hn : NetworkInterface.Validate n with
    | some e =>
      rw [hn] at h
      refine ⟨0, n, e, by simp, hn, ?_, ?_⟩
      · exact (Option.some.inj h).symm
      · intro r2 hr2
        simp at hr2
    | none =>
      rw [hn] at h
      obtain ⟨j, r, e, hj, hv, hmsg, hbefore⟩ := ih (i + 1) msg h
      refine ⟨j + 1, r, e, ?_, hv, ?_, ?_⟩
      · simpa using hj
      · rw [hmsg, Nat.add_assoc, Nat.add_comm 1 j]
      · intro r2 hr2
        rw [List.take_succ_cons, List.mem_cons] at hr2
        rcases hr2 with h2 | h2
        · rw [h2]
          exact hn
        · exact hbefore r2 h2

theorem replaceInterface_ids (stored : List NetworkInterface) (r : NetworkInterface) :
    (replaceInterface stored r).map NetworkInterface.ID =
      stored.map NetworkInterface.ID := by
  unfold replaceInterface
  rw [List.map_map]
  apply List.map_congr_left
  intro k _
  simp only [Function.comp]
  split
  · rename_i h
    exact (beq_iff_eq.mp h).symm
  · rfl

theorem foldl_replaceInterface_ids (request : List NetworkInterface) :
    ∀ stored : List NetworkInterface,
      (request.foldl replaceInterface stored).map NetworkInterface.ID =
        stored.map NetworkInterface.ID := by
  induction request with
  | nil =>
    intro stored
    rfl
  | cons r rest ih =>
    intro stored
    rw [List.foldl_cons, ih, replaceInterface_ids]

theorem foldl_replaceInterface_mem (request : List NetworkInterface) :
    ∀ (stored : List NetworkInterface) (x : NetworkInterface),
      x ∈ request.foldl replaceInterface stored →
        x ∈ request ∨ (x ∈ stored ∧ ∀ r ∈ request, r.ID ≠ x.ID) := by
  induction request with
  | nil =>
    intro stored x hx
    exact Or.inr ⟨hx, fun r hr => (by simp at hr)⟩
  | cons r rest ih =>
    intro stored x hx
    rw [List.foldl_cons] at hx
    rcases ih (replaceInterface stored r) x hx with h | ⟨h, hrest⟩
    · exact Or.inl (List.mem_cons_of_mem _ h)
    · unfold replaceInterface at h
      obtain ⟨k, hk, hkx⟩ := List.mem_map.mp h
      by_cases hid : k.ID = r.ID
      · rw [if_pos (beq_iff_eq.mpr hid)] at hkx
        exact Or.inl (by rw [← hkx]; exact List.mem_cons_self _ _)
      · have hb : ¬ (k.ID == r.ID) = true := fun hb => hid (beq_iff_eq.mp hb)
        rw [if_neg hb] at hkx
        subst hkx
        refine Or.inr ⟨hk, ?_⟩
        intro r2 hr2
        rcases List.mem_cons.mp hr2 with h2 | h2
        · rw [h2]
          exact fun h3 => hid h3.symm
        · exact hrest r2 h2

/-- The cases of `PATCH /nodes/{node_id}/interfaces` of `nodes_test.go`: the
request with the four interfaces is answered 200 and stored; the requests with
an empty driver or an empty type are answered 400; the request with `if03` is
answered 404; the request with `if0` alone is answered 500. -/
theorem bulkUpdateInterfaces_nodes_test :
    bulkUpdateInterfaces fixtureInterfaces
        [fixturePatchedInterface "if0" "CHANGED IN PATCH", fixtureInterface "1" 1,
          fixtureInterface "2" 2, fixtureInterface "3" 3] =
      { Status := 200, Error := none,
        Interfaces := [fixturePatchedInterface "if0" "CHANGED IN PATCH",
          fixtureInterface "1" 1, fixtureInterface "2" 2, fixtureInterface "3" 3] } ∧
    bulkUpdateInterfaces fixtureInterfaces [fixtureEmptyTypeInterface ""] =
      { Status := 400,
        Error := some ("Validation failed: network_interfaces[0].driver " ++
          "must be one of [kernel, userspace]"),
        Interfaces := fixtureInterfaces } ∧
    bulkUpdateInterfaces fixtureInterfaces [fixtureEmptyTypeInterface "kernel"] =
      { Status := 400,
        Error := some ("Validation failed: network_interfaces[0].type must be one of " ++
          "[none, upstream, downstream, bidirectional, breakout]"),
        Interfaces := fixtureInterfaces } ∧
    bulkUpdateInterfaces fixtureInterfaces
        [fixturePatchedInterface "if03" "interface0", fixtureInterface "1" 1,
          fixtureInterface "2" 2, fixtureInterface "3" 3] =
      { Status := 404, Error := some "Network Interface if03 not found",
        Interfaces := fixtureInterfaces } ∧
    bulkUpdateInterfaces fixtureInterfaces [fixturePatchedInterface "if0" "interface0"] =
      { Status := 500,
        Error := some ("error bulk updating network interfaces: rpc error: code = " ++
          "FailedPrecondition desc = Network Interface if1 missing from request"),
        Interfaces := fixtureInterfaces } := by
  exact ⟨by rfl, by rfl, by rfl, by rfl, by rfl⟩

/-! ## The claims -/

/-- C1: `IPFilter.Validate` returns no error if and only if the address parses
as an IP address, the mask is in `[0..128]`, both ports are in `[0..65535]`,
the begin port is at most the end port, and the protocol is exactly one of
`tcp`, `udp`, `icmp`, `sctp`, `all`. -/
theorem c1_ipFilter_validate_iff (env : Env) (f : IPFilter) :
    IPFilter.Validate env f = none ↔
      (env.parseIP f.Address = true ∧ 0 ≤ f.Mask ∧ f.Mask ≤ 128 ∧
        0 ≤ f.BeginPort ∧ f.BeginPort ≤ 65535 ∧
        0 ≤ f.EndPort ∧ f.EndPort ≤ 65535 ∧ f.BeginPort ≤ f.EndPort ∧
        (f.Protocol = "tcp" ∨ f.Protocol = "udp" ∨ f.Protocol = "icmp" ∨
          f.Protocol = "sctp" ∨ f.Protocol = "all")) := by
  unfold IPFilter.Validate
  constructor
  · intro h
    split_ifs at h with h1 h2 h3 h4 h5 h6
    refine ⟨by simpa using h1, ?_, ?_, ?_, ?_, ?_, ?_, ?_, h6⟩ <;> omega
  · rintro ⟨h1, h2, h3, h4, h5, h6, h7, h8, h9⟩
    rw [if_neg (by simp [h1]), if_neg (by omega), if_neg (by omega),
      if_neg (by omega), if_neg (by omega), if_pos h9]

/-- C2: `GTPFilter.Validate` accepts the IMSI `-1234567890123`, thirteen digits
behind a minus sign: `strconv.ParseInt` takes the sign and the string has
fourteen bytes, although its first character is not a decimal digit. -/
theorem c2_gtpFilter_signed_imsi_accepted :
    GTPFilter.Validate fixtureEnv
        { Address := "10.6.7.2", Mask := 12, IMSIs := ["-1234567890123"] } = none ∧
      "-1234567890123".toList.all Char.isDigit = false := by
  constructor
  · rfl
  · rfl

/-- C3: `TrafficRule.Validate` returns no error if and only if the priority is
in `[1..65535]`, at least one of source and destination is present, each present
selector passes `TrafficSelector.Validate`, and the target is present and passes
`TrafficTarget.Validate`. -/
theorem c3_trafficRule_validate_iff (env : Env) (r : TrafficRule) :
    TrafficRule.Validate env r = none ↔
      (1 ≤ r.Priority ∧ r.Priority ≤ 65535 ∧
        (r.Source ≠ none ∨ r.Destination ≠ none) ∧
        (∀ s, r.Source = some s → TrafficSelector.Validate env s = none) ∧
        (∀ d, r.Destination = some d → TrafficSelector.Validate env d = none) ∧
        ∃ t, r.Target = some t ∧ TrafficTarget.Validate env t = none) := by
  unfold TrafficRule.Validate
  by_cases hp : r.Priority < 1 ∨ r.Priority > 65535
  · rw [if_pos hp]
    constructor
    · intro h; cases h
    · rintro ⟨h1, h2, -⟩; omega
  · rw [if_neg hp]
    have hp1 : 1 ≤ r.Priority := by omega
    have hp2 : r.Priority ≤ 65535 := by omega
    rcases hs : r.Source with _ | s <;> rcases hd : r.Destination with _ | d <;>
      rcases ht : r.Target with _ | t <;>
      simp [nested, hp1, hp2]
    all_goals (first | (cases h1 : TrafficSelector.Validate env s) | skip) <;> (first | (cases h2 : TrafficSelector.Validate env d) | skip) <;> (first | (cases h3 : TrafficTarget.Validate env t) | skip) <;> simp

/-- C4, as stated, fails: the fixture policy with an empty name has a valid
UUID as ID and a non-empty list of rules that all pass `TrafficRule.Validate`,
and `TrafficPolicy.Validate` returns the error `name cannot be empty`. -/
theorem c4_empty_name_counterexample :
    fixtureEnv.uuidIsValid ({ fixturePolicy with Name := "" } : TrafficPolicy).ID = true ∧
      ({ fixturePolicy with Name := "" } : TrafficPolicy).Rules ≠ [] ∧
      (∀ r ∈ ({ fixturePolicy with Name := "" } : TrafficPolicy).Rules,
        ∃ rule, r = some rule ∧ TrafficRule.Validate fixtureEnv rule = none) ∧
      TrafficPolicy.Validate fixtureEnv { fixturePolicy with Name := "" } =
        Run.ret (some "name cannot be empty") := by
  refine ⟨by decide, by decide, ?_, by rfl⟩
  intro r hr
  have hr2 : r = some fixtureRule := by simpa [fixturePolicy] using hr
  exact ⟨fixtureRule, hr2, by rfl⟩

/-- C4, amended: a policy whose ID is a valid UUID, whose name is not empty,
whose rule list is not empty and every one of whose rules passes
`TrafficRule.Validate` passes `TrafficPolicy.Validate`. -/
theorem c4_valid_policy_accepted (env : Env) (tp : TrafficPolicy)
    (hid : env.uuidIsValid tp.ID = true) (hname : tp.Name ≠ "")
    (hrules : tp.Rules ≠ [])
    (hall : ∀ r ∈ tp.Rules, ∃ rule, r = some rule ∧ TrafficRule.Validate env rule = none) :
    TrafficPolicy.Validate env tp = Run.ret none := by
  unfold TrafficPolicy.Validate
  rw [if_neg (by simp [hid]), if_neg hname,
    if_neg (by simpa [List.length_eq_zero] using hrules)]
  exact validateRulesFrom_all_valid env tp.Rules 0 hall

/-- Witness of C4: the fixture policy passes. -/
theorem c4_valid_policy_accepted_witness :
    TrafficPolicy.Validate fixtureEnv fixturePolicy = Run.ret none :=
  c4_valid_policy_accepted fixtureEnv fixturePolicy (by decide) (by decide) (by decide)
    (fun r hr => ⟨fixtureRule, by simpa [fixturePolicy] using hr, by rfl⟩)

/-- C5, as stated, fails: the error for an ID that is not a UUID is
`id not a valid uuid`, which has no match of
`rules\[\d+\]\.(source|destination|target)\..*`. -/
theorem c5_top_level_error_counterexample :
    TrafficPolicy.Validate fixtureEnv { fixturePolicy with ID := "123" } =
        Run.ret (some "id not a valid uuid") ∧
      matchesRulePath "id not a valid uuid" = false := by
  constructor
  · rfl
  · rfl

/-- C5, amended: when `TrafficPolicy.Validate` returns an error, the message is
`id not a valid uuid`, `name cannot be empty` or `rules cannot be empty`, or it
is `rules[i].` followed by the error of rule `i`; in the last case either the
error of the rule is one of its own three messages (priority, source and
destination both empty, target empty) or the message matches
`rules\[\d+\]\.(source|destination|target)\..*`. -/
theorem c5_error_path (env : Env) (tp : TrafficPolicy) (msg : String)
    (h : TrafficPolicy.Validate env tp = Run.ret (some msg)) :
    msg = "id not a valid uuid" ∨ msg = "name cannot be empty" ∨
      msg = "rules cannot be empty" ∨
      ∃ (i : Nat) (rule : TrafficRule) (e : String),
        tp.Rules[i]? = some (some rule) ∧ TrafficRule.Validate env rule = some e ∧
        msg = "rules[" ++ toString i ++ "]." ++ e ∧
        (e = "priority must be in [1..65535]" ∨
          e = "source & destination cannot both be empty" ∨
          e = "target cannot be empty" ∨ matchesRulePath msg = true) := by
  unfold TrafficPolicy.Validate at h
  split_ifs at h with h1 h2 h3
  · exact Or.inl (by injection h with h; exact (Option.some.inj h).symm)
  · exact Or.inr (Or.inl (by injection h with h; exact (Option.some.inj h).symm))
  · exact Or.inr (Or.inr (Or.inl (by injection h with h; exact (Option.some.inj h).symm)))
  · obtain ⟨k, rule, e, hk, hv, hmsg⟩ := validateRulesFrom_error_inv env tp.Rules 0 msg h
    rw [Nat.zero_add] at hmsg
    refine Or.inr (Or.inr (Or.inr ⟨k, rule, e, hk, hv, hmsg, ?_⟩))
    rcases trafficRule_error_shape env rule e hv with
      h | h | h | ⟨inner, h⟩ | ⟨inner, h⟩ | ⟨inner, h⟩
    · exact Or.inl h
    · exact Or.inr (Or.inl h)
    · exact Or.inr (Or.inr (Or.inl h))
    · exact Or.inr (Or.inr (Or.inr (by rw [hmsg, h]; exact matchesRulePath_source k inner)))
    · exact Or.inr (Or.inr (Or.inr (by rw [hmsg, h]; exact matchesRulePath_destination k inner)))
    · exact Or.inr (Or.inr (Or.inr (by rw [hmsg, h]; exact matchesRulePath_target k inner)))

/-- Witness of C5: the error of the fixture with a begin port of `-1`. -/
theorem c5_error_path_witness :
    TrafficPolicy.Validate fixtureEnv fixtureBadPortPolicy =
        Run.ret (some "rules[0].source.ip_filter.begin_port must be in [0..65535]") ∧
      matchesRulePath "rules[0].source.ip_filter.begin_port must be in [0..65535]" = true ∧
      ("rules[0].source.ip_filter.begin_port must be in [0..65535]" = "id not a valid uuid" ∨
        "rules[0].source.ip_filter.begin_port must be in [0..65535]" = "name cannot be empty" ∨
        "rules[0].source.ip_filter.begin_port must be in [0..65535]" = "rules cannot be empty" ∨
        ∃ (i : Nat) (rule : TrafficRule) (e : String),
          fixtureBadPortPolicy.Rules[i]? = some (some rule) ∧
          TrafficRule.Validate fixtureEnv rule = some e ∧
          "rules[0].source.ip_filter.begin_port must be in [0..65535]" =
            "rules[" ++ toString i ++ "]." ++ e ∧
          (e = "priority must be in [1..65535]" ∨
            e = "source & destination cannot both be empty" ∨
            e = "target cannot be empty" ∨
            matchesRulePath "rules[0].source.ip_filter.begin_port must be in [0..65535]" =
              true)) :=
  ⟨by rfl, by rfl, c5_error_path fixtureEnv fixtureBadPortPolicy _ (by rfl)⟩

/-- C6: for a policy with a valid UUID as ID and a non-empty name, and an index
`i` such that every rule before `i` is valid and rule `i` has a priority in
`[1..65535]` and a source selector whose MAC filter is absent or valid and whose
IP filter has an address that parses, a mask in `[0..128]` and a begin port
outside `[0..65535]`, `TrafficPolicy.Validate` returns exactly
`rules[i].source.ip_filter.begin_port must be in [0..65535]`. -/
theorem c6_nested_begin_port_path (env : Env) (tp : TrafficPolicy) (i : Nat)
    (rule : TrafficRule) (sel : TrafficSelector) (ipf : IPFilter)
    (hid : env.uuidIsValid tp.ID = true) (hname : tp.Name ≠ "")
    (hi : tp.Rules[i]? = some (some rule))
    (hbefore : ∀ j < i, ∃ r, tp.Rules[j]? = some (some r) ∧
      TrafficRule.Validate env r = none)
    (hprio : 1 ≤ rule.Priority ∧ rule.Priority ≤ 65535)
    (hsrc : rule.Source = some sel)
    (hmac : ∀ m, sel.MACs = some m → MACFilter.Validate env m = none)
    (hip : sel.IP = some ipf)
    (haddr : env.parseIP ipf.Address = true)
    (hmask : 0 ≤ ipf.Mask ∧ ipf.Mask ≤ 128)
    (hport : ipf.BeginPort < 0 ∨ 65535 < ipf.BeginPort) :
    TrafficPolicy.Validate env tp =
      Run.ret (some ("rules[" ++ toString i ++
        "].source.ip_filter.begin_port must be in [0..65535]")) := by
  have hipv : IPFilter.Validate env ipf = some "begin_port must be in [0..65535]" := by
    unfold IPFilter.Validate
    rw [if_neg (by simp [haddr]), if_neg (by omega), if_pos (by omega)]
  have hsel : TrafficSelector.Validate env sel =
      some ("ip_filter" ++ "." ++ "begin_port must be in [0..65535]") := by
    unfold TrafficSelector.Validate
    rw [if_neg (by simp [hip])]
    rcases hm : sel.MACs with _ | m
    · simp [nested, hip, hipv]
    · simp [nested, hip, hipv, hmac m hm]
  have hrule : TrafficRule.Validate env rule =
      some ("source" ++ "." ++ ("ip_filter" ++ "." ++ "begin_port must be in [0..65535]")) := by
    unfold TrafficRule.Validate
    rw [if_neg (by omega), if_neg (by simp [hsrc])]
    simp [nested, hsrc, hsel]
  have hlen : ¬ tp.Rules.length = 0 := by
    intro h0
    rw [List.length_eq_zero] at h0
    simp [h0] at hi
  unfold TrafficPolicy.Validate
  rw [if_neg (by simp [hid]), if_neg hname, if_neg hlen,
    validateRulesFrom_first_error env tp.Rules 0 i rule _ hi hbefore hrule,
    Nat.zero_add, String.append_assoc]
  rfl

/-- Witness of C6: the fixture with a begin port of `-1`, at index `0`. -/
theorem c6_nested_begin_port_path_witness :
    TrafficPolicy.Validate fixtureEnv fixtureBadPortPolicy =
      Run.ret (some ("rules[" ++ toString 0 ++
        "].source.ip_filter.begin_port must be in [0..65535]")) :=
  c6_nested_begin_port_path fixtureEnv fixtureBadPortPolicy 0
    { fixtureRule with
      Source := some { fixtureSource with
        IP := some { Address := "223.1.1.0", Mask := 16, BeginPort := -1,
                     EndPort := 2012, Protocol := "tcp" } } }
    { fixtureSource with
      IP := some { Address := "223.1.1.0", Mask := 16, BeginPort := -1,
                   EndPort := 2012, Protocol := "tcp" } }
    { Address := "223.1.1.0", Mask := 16, BeginPort := -1, EndPort := 2012, Protocol := "tcp" }
    (by decide) (by decide) rfl (fun j hj => absurd hj (Nat.not_lt_zero j))
    (by decide) rfl
    (fun m hm => by
      have : m = { MACAddresses :=
          ["F0-59-8E-7B-36-8A", "23-20-8E-15-89-D1", "35-A4-38-73-35-45"] } :=
        (Option.some.inj hm).symm
      subst this
      rfl)
    rfl (by decide) (by decide) (Or.inl (by decide))

/-- C7: a policy whose ID is not a valid UUID gets exactly the error
`id not a valid uuid`, whatever its name and rules are; hence a policy that
passes `Validate` has a valid UUID as its ID. -/
theorem c7_invalid_id_rejected (env : Env) (tp : TrafficPolicy) :
    (env.uuidIsValid tp.ID = false →
        TrafficPolicy.Validate env tp = Run.ret (some "id not a valid uuid")) ∧
      (TrafficPolicy.Validate env tp = Run.ret none → env.uuidIsValid tp.ID = true) := by
  constructor
  · intro h
    unfold TrafficPolicy.Validate
    rw [if_pos h]
  · intro h
    unfold TrafficPolicy.Validate at h
    by_contra hc
    rw [if_pos (by simpa using hc)] at h
    cases h

/-- Witness of C7: the fixture policy with the ID `123`, as in the test suite. -/
theorem c7_invalid_id_rejected_witness :
    fixtureEnv.uuidIsValid "123" = false ∧
      TrafficPolicy.Validate fixtureEnv { fixturePolicy with ID := "123" } =
        Run.ret (some "id not a valid uuid") :=
  ⟨by decide, (c7_invalid_id_rejected fixtureEnv { fixturePolicy with ID := "123" }).1
    (by decide)⟩

/-- C8: a policy with a valid UUID as ID, a non-empty name and an empty rule
list gets exactly the error `rules cannot be empty`. -/
theorem c8_empty_rules_rejected (env : Env) (tp : TrafficPolicy)
    (hid : env.uuidIsValid tp.ID = true) (hname : tp.Name ≠ "")
    (hrules : tp.Rules = []) :
    TrafficPolicy.Validate env tp = Run.ret (some "rules cannot be empty") := by
  unfold TrafficPolicy.Validate
  rw [if_neg (by simp [hid]), if_neg hname, if_pos (by simp [hrules])]

/-- Witness of C8: the fixture policy without rules. -/
theorem c8_empty_rules_rejected_witness :
    TrafficPolicy.Validate fixtureEnv { fixturePolicy with Rules := [] } =
      Run.ret (some "rules cannot be empty") :=
  c8_empty_rules_rejected fixtureEnv { fixturePolicy with Rules := [] }
    (by decide) (by decide) rfl

/-- C9: `TrafficSelector.Validate` returns the error
`mac_filter|ip_filter|gtp_filter cannot all be nil` if and only if the MAC, IP
and GTP filters are all absent; when at least one is present it returns no error
exactly when every present filter passes its own `Validate`. -/
theorem c9_trafficSelector_validate (env : Env) (s : TrafficSelector) :
    (TrafficSelector.Validate env s =
        some "mac_filter|ip_filter|gtp_filter cannot all be nil" ↔
      (s.MACs = none ∧ s.IP = none ∧ s.GTP = none)) ∧
    (¬(s.MACs = none ∧ s.IP = none ∧ s.GTP = none) →
      (TrafficSelector.Validate env s = none ↔
        ((∀ m, s.MACs = some m → MACFilter.Validate env m = none) ∧
          (∀ f, s.IP = some f → IPFilter.Validate env f = none) ∧
          (∀ g, s.GTP = some g → GTPFilter.Validate env g = none)))) := by
  unfold TrafficSelector.Validate
  by_cases hall : s.MACs = none ∧ s.IP = none ∧ s.GTP = none
  · rw [if_pos hall]
    exact ⟨⟨fun _ => hall, fun _ => rfl⟩, fun h => absurd hall h⟩
  · rw [if_neg hall]
    refine ⟨⟨?_, fun h => absurd h hall⟩, fun _ => ?_⟩
    · intro h
      exfalso
      rcases hm : s.MACs with _ | m <;> rcases hi : s.IP with _ | f <;>
        rcases hg : s.GTP with _ | g <;> simp [nested, hm, hi, hg] at h hall
      all_goals
        (first | (cases h1 : MACFilter.Validate env m) | skip) <;>
        (first | (cases h2 : IPFilter.Validate env f) | skip) <;>
        (first | (cases h3 : GTPFilter.Validate env g) | skip) <;>
        simp_all
      all_goals
        (have h4 := congrArg String.toList h
         simp [String.toList, String.data_append] at h4)
    · rcases hm : s.MACs with _ | m <;> rcases hi : s.IP with _ | f <;>
        rcases hg : s.GTP with _ | g <;> simp [nested]
      all_goals
        (first | (cases h1 : MACFilter.Validate env m) | skip) <;>
        (first | (cases h2 : IPFilter.Validate env f) | skip) <;>
        (first | (cases h3 : GTPFilter.Validate env g) | skip) <;>
        simp

/-- Witness of C9: the fixture's source selector, whose three filters are
present and valid. -/
theorem c9_trafficSelector_validate_witness :
    TrafficSelector.Validate fixtureEnv fixtureSource = none :=
  ((c9_trafficSelector_validate fixtureEnv fixtureSource).2 (by decide)).2
    ⟨fun m hm => by cases hm; rfl, fun f hf => by cases hf; rfl,
      fun g hg => by cases hg; rfl⟩

/-- C10: `TrafficTarget.Validate` returns no error if and only if the action is
exactly one of `accept`, `reject`, `drop`, the MAC modifier is absent or its
address parses as a MAC address, and the IP modifier is absent or passes
`IPModifier.Validate`; when the action is not one of the three, the error is
exactly `action must be one of [accept, reject, drop]`, whatever the modifiers
are. -/
theorem c10_trafficTarget_validate (env : Env) (t : TrafficTarget) :
    (TrafficTarget.Validate env t = none ↔
      ((t.Action = "accept" ∨ t.Action = "reject" ∨ t.Action = "drop") ∧
        (∀ m, t.MAC = some m → env.parseMACErr m.MACAddress = none) ∧
        (∀ p, t.IP = some p → IPModifier.Validate env p = none))) ∧
    (¬(t.Action = "accept" ∨ t.Action = "reject" ∨ t.Action = "drop") →
      TrafficTarget.Validate env t =
        some "action must be one of [accept, reject, drop]") := by
  unfold TrafficTarget.Validate
  by_cases ha : t.Action = "accept" ∨ t.Action = "reject" ∨ t.Action = "drop"
  · rw [if_pos ha]
    refine ⟨?_, fun h => absurd ha h⟩
    rcases hm : t.MAC with _ | m <;> rcases hi : t.IP with _ | p <;>
      simp [nested, ha, MACModifier.Validate]
    all_goals
      (first | (cases h1 : env.parseMACErr m.MACAddress) | skip) <;>
      (first | (cases h2 : IPModifier.Validate env p) | skip) <;>
      simp
  · rw [if_neg ha]
    exact ⟨⟨fun h => Option.noConfusion h, fun h => absurd h.1 ha⟩, fun _ => rfl⟩

/-- Witness of C10: the action `abc` of the test suite, with the fixture's
modifiers. -/
theorem c10_trafficTarget_validate_witness :
    TrafficTarget.Validate fixtureEnv { fixtureTarget with Action := "abc" } =
      some "action must be one of [accept, reject, drop]" :=
  (c10_trafficTarget_validate fixtureEnv { fixtureTarget with Action := "abc" }).2
    (by decide)

/-- C11: `IPModifier.Validate` returns no error if and only if the address
parses as an IP address and the port is in `[1..65535]`; port `0` with an address
that parses gets exactly `port must be in [1..65535]`, while `IPFilter.Validate`
accepts `0` as begin and end port. -/
theorem c11_ipModifier_validate (env : Env) (m : IPModifier) (f : IPFilter) :
    (IPModifier.Validate env m = none ↔
      (env.parseIP m.Address = true ∧ 1 ≤ m.Port ∧ m.Port ≤ 65535)) ∧
    (env.parseIP m.Address = true → m.Port = 0 →
      IPModifier.Validate env m = some "port must be in [1..65535]") ∧
    (env.parseIP f.Address = true → 0 ≤ f.Mask → f.Mask ≤ 128 →
      f.BeginPort = 0 → f.EndPort = 0 →
      (f.Protocol = "tcp" ∨ f.Protocol = "udp" ∨ f.Protocol = "icmp" ∨
        f.Protocol = "sctp" ∨ f.Protocol = "all") →
      IPFilter.Validate env f = none) := by
  refine ⟨?_, ?_, ?_⟩
  · unfold IPModifier.Validate
    constructor
    · intro h
      split_ifs at h with h1 h2
      exact ⟨by simpa using h1, by omega, by omega⟩
    · rintro ⟨h1, h2, h3⟩
      rw [if_neg (by simp [h1]), if_neg (by omega)]
  · intro h1 h2
    unfold IPModifier.Validate
    rw [if_neg (by simp [h1]), if_pos (by omega)]
  · intro h1 h2 h3 h4 h5 h6
    unfold IPFilter.Validate
    rw [if_neg (by simp [h1]), if_neg (by omega), if_neg (by omega),
      if_neg (by omega), if_neg (by omega), if_pos h6]

/-- Witness of C11: the fixture's IP modifier with port `0`, as in the test
suite. -/
theorem c11_ipModifier_validate_witness :
    IPModifier.Validate fixtureEnv { Address := "123.2.3.4", Port := 0 } =
      some "port must be in [1..65535]" :=
  (c11_ipModifier_validate fixtureEnv { Address := "123.2.3.4", Port := 0 }
    { Address := "223.1.1.0", Mask := 16, BeginPort := 0, EndPort := 0,
      Protocol := "tcp" }).2.1 (by decide) rfl

/-- C12: `MACFilter.Validate` returns an error if and only if some entry of
`MACAddresses` fails to parse as a MAC address; the error is then
`mac_addresses[i] could not be parsed (e)` where `i` is the smallest index of an
entry that fails to parse and `e` is the parser's error for that entry; an empty
list passes. -/
theorem c12_macFilter_validate (env : Env) (f : MACFilter) :
    (MACFilter.Validate env f ≠ none ↔
      ∃ mac ∈ f.MACAddresses, env.parseMACErr mac ≠ none) ∧
    (∀ msg : String, MACFilter.Validate env f = some msg ↔
      ∃ (i : Nat) (mac e : String),
        f.MACAddresses[i]? = some mac ∧ env.parseMACErr mac = some e ∧
        (∀ j < i, ∀ m, f.MACAddresses[j]? = some m → env.parseMACErr m = none) ∧
        msg = "mac_addresses[" ++ toString i ++ "] could not be parsed (" ++ e ++ ")") ∧
    MACFilter.Validate env { MACAddresses := [] } = none := by
  refine ⟨?_, ?_, rfl⟩
  · unfold MACFilter.Validate
    rw [Ne, macFilter_validateFrom_none_iff]
    push_neg
    rfl
  · intro msg
    unfold MACFilter.Validate
    rw [macFilter_validateFrom_some_iff]
    simp only [Nat.zero_add]

/-- Witness of C12: the fixture's MAC filter with `abc-def` as its second
address. -/
theorem c12_macFilter_validate_witness :
    MACFilter.Validate fixtureEnv
        { MACAddresses := ["F0-59-8E-7B-36-8A", "abc-def", "35-A4-38-73-35-45"] } =
      some ("mac_addresses[" ++ toString 1 ++ "] could not be parsed (" ++
        "address abc-def: invalid MAC address" ++ ")") :=
  ((c12_macFilter_validate fixtureEnv
      { MACAddresses := ["F0-59-8E-7B-36-8A", "abc-def", "35-A4-38-73-35-45"] }).2.1 _).2
    ⟨1, "abc-def", "address abc-def: invalid MAC address", rfl, rfl,
      fun j hj m hm => by
        have hj0 : j = 0 := by omega
        subst hj0
        cases hm
        rfl,
      rfl⟩

/-- C13: `GTPFilter.Validate` checks in the order address empty, address
unparseable, mask, IMSIs. It returns `address cannot be empty` exactly when the
address is the empty string, `address could not be parsed` exactly when the
address is not empty and does not parse as an IP address, and
`mask must be in [0..128]` exactly when the address parses and the mask is
outside `[0..128]`; the empty string does not parse as an IP address. -/
theorem c13_gtpFilter_check_order (env : Env) (f : GTPFilter)
    (hempty : env.parseIP "" = false) :
    (GTPFilter.Validate env f = some "address cannot be empty" ↔ f.Address = "") ∧
    (GTPFilter.Validate env f = some "address could not be parsed" ↔
      (f.Address ≠ "" ∧ env.parseIP f.Address = false)) ∧
    (GTPFilter.Validate env f = some "mask must be in [0..128]" ↔
      (env.parseIP f.Address = true ∧ (f.Mask < 0 ∨ 128 < f.Mask))) := by
  have himsi : ∀ msg : String, GTPFilter.validateIMSIsFrom f.IMSIs 0 = some msg →
      msg ≠ "address cannot be empty" ∧ msg ≠ "address could not be parsed" ∧
        msg ≠ "mask must be in [0..128]" := by
    intro msg h
    obtain ⟨k, rfl⟩ := validateIMSIsFrom_shape f.IMSIs 0 msg h
    refine ⟨?_, ?_, ?_⟩ <;>
    · intro h2
      have h3 := congrArg String.toList h2
      simp [String.toList, String.data_append] at h3
  unfold GTPFilter.Validate
  by_cases h1 : f.Address = ""
  · rw [if_pos h1]
    refine ⟨⟨fun _ => h1, fun _ => rfl⟩, ⟨fun h => ?_, fun h => absurd h1 h.1⟩,
      ⟨fun h => ?_, fun h => ?_⟩⟩
    · exact absurd (Option.some.inj h) (by decide)
    · exact absurd (Option.some.inj h) (by decide)
    · rw [h1, hempty] at h
      exact absurd h.1 (by decide)
  · rw [if_neg h1]
    by_cases h2 : env.parseIP f.Address = false
    · rw [if_pos h2]
      refine ⟨⟨fun h => ?_, fun h => absurd h h1⟩, ⟨fun _ => ⟨h1, h2⟩, fun _ => rfl⟩,
        ⟨fun h => ?_, fun h => ?_⟩⟩
      · exact absurd (Option.some.inj h) (by decide)
      · exact absurd (Option.some.inj h) (by decide)
      · rw [h2] at h
        exact absurd h.1 (by decide)
    · rw [if_neg h2]
      have h2t : env.parseIP f.Address = true := by simpa using h2
      by_cases h3 : f.Mask < 0 ∨ f.Mask > 128
      · rw [if_pos h3]
        refine ⟨⟨fun h => ?_, fun h => absurd h h1⟩, ⟨fun h => ?_, fun h => absurd h.2 h2⟩,
          ⟨fun _ => ⟨h2t, by omega⟩, fun _ => rfl⟩⟩
        · exact absurd (Option.some.inj h) (by decide)
        · exact absurd (Option.some.inj h) (by decide)
      · rw [if_neg h3]
        refine ⟨⟨fun h => absurd rfl (himsi _ h).1, fun h => absurd h h1⟩,
          ⟨fun h => absurd rfl (himsi _ h).2.1, fun h => absurd h.2 h2⟩,
          ⟨fun h => absurd rfl (himsi _ h).2.2, fun h => absurd h.2 (by omega)⟩⟩

/-- Witness of C13: the fixture's GTP filter with the mask `129`, as in the
test suite. -/
theorem c13_gtpFilter_check_order_witness :
    GTPFilter.Validate fixtureEnv
        { Address := "10.6.7.2", Mask := 129,
          IMSIs := ["310150123456789", "310150123456790", "310150123456791"] } =
      some "mask must be in [0..128]" :=
  ((c13_gtpFilter_check_order fixtureEnv
      { Address := "10.6.7.2", Mask := 129,
        IMSIs := ["310150123456789", "310150123456790", "310150123456791"] }
      (by decide)).2.2).2 ⟨by decide, Or.inr (by decide)⟩

/-- C14: for every server name other than `grpc.SNI` and `grpc.EnrollmentSNI`
the callback that `getGRPCTLS` builds returns no configuration and the error
`unexpected server name: ` followed by the name; for each of the two known names
it returns a configuration and no error. -/
theorem c14_unexpected_server_name (sys : Sys) (ca : RootCA) (w w2 : World)
    (cb : String → Option TLSConfig × Option String)
    (h : getGRPCTLS sys ca w = (Proc.ret cb, w2)) :
    (∀ name : String, name ≠ grpcSNI → name ≠ grpcEnrollmentSNI →
      cb name = (none, some ("unexpected server name: " ++ name))) ∧
    (∃ conf, cb grpcSNI = (some conf, none)) ∧
    (∃ conf, cb grpcEnrollmentSNI = (some conf, none)) := by
  obtain ⟨conf1, conf2, w1, -, -, rfl⟩ := getGRPCTLS_ret sys ca w w2 cb h
  refine ⟨fun name h1 h2 => ?_, ⟨_, (grpcConfigForClient_known _ _).1⟩,
    ⟨_, (grpcConfigForClient_known _ _).2⟩⟩
  unfold grpcConfigForClient
  rw [if_neg h1, if_neg h2]

/-- Witness of C14: the callback of the concrete system on `example.org`. -/
theorem c14_unexpected_server_name_witness :
    getGRPCTLS fixtureSys fixtureRootCA initializedWorld =
        (Proc.ret fixtureCallback, initializedWorld.advance 8) ∧
      fixtureCallback "example.org" =
        (none, some "unexpected server name: example.org") :=
  ⟨rfl, (c14_unexpected_server_name fixtureSys fixtureRootCA initializedWorld
    (initializedWorld.advance 8) fixtureCallback rfl).1 "example.org"
    (by decide) (by decide)⟩

/-- C15: the callback that `getGRPCTLS` builds returns, for the enrollment
server name, a configuration with `ClientAuth = NoClientCert` and, for the
authenticated server name, one with `ClientAuth = RequireAndVerifyClientCert`;
a configuration it returns for any name other than the enrollment server name
requires and verifies a client certificate. -/
theorem c15_client_auth_by_server_name (sys : Sys) (ca : RootCA) (w w2 : World)
    (cb : String → Option TLSConfig × Option String)
    (h : getGRPCTLS sys ca w = (Proc.ret cb, w2)) :
    (∃ conf, cb grpcEnrollmentSNI = (some conf, none) ∧
      conf.ClientAuth = ClientAuthType.NoClientCert) ∧
    (∃ conf, cb grpcSNI = (some conf, none) ∧
      conf.ClientAuth = ClientAuthType.RequireAndVerifyClientCert) ∧
    (∀ (name : String) (conf : TLSConfig) (err : Option String),
      cb name = (some conf, err) → name ≠ grpcEnrollmentSNI →
      conf.ClientAuth = ClientAuthType.RequireAndVerifyClientCert) := by
  obtain ⟨conf1, conf2, w1, -, -, rfl⟩ := getGRPCTLS_ret sys ca w w2 cb h
  refine ⟨⟨_, (grpcConfigForClient_known _ _).2, rfl⟩,
    ⟨_, (grpcConfigForClient_known _ _).1, rfl⟩, ?_⟩
  intro name conf err hn hne
  unfold grpcConfigForClient at hn
  rw [if_neg hne] at hn
  split_ifs at hn with h1
  · simp only [Prod.mk.injEq, Option.some.injEq] at hn
    rw [← hn.1]
  · simp at hn

/-- Witness of C15: the configuration of the concrete system for the
authenticated server name. -/
theorem c15_client_auth_by_server_name_witness :
    ∃ conf, fixtureCallback grpcSNI = (some conf, none) ∧
      conf.ClientAuth = ClientAuthType.RequireAndVerifyClientCert :=
  (c15_client_auth_by_server_name fixtureSys fixtureRootCA initializedWorld
    (initializedWorld.advance 8) fixtureCallback rfl).2.1

/-- C16: a configuration that `newTLSConf` or `newClientTLSConf` returns has
`MinVersion = VersionTLS12` and the one cipher suite
`TLS_ECDHE_ECDSA_WITH_AES_128_GCM_SHA256`; a configuration that the callback of
`getGRPCTLS` returns has these and `NextProtos = ["h2"]`. -/
theorem c16_tls_parameters (sys : Sys) (ca : RootCA) :
    (∀ (sni : String) (w w1 : World) (conf : TLSConfig),
      newTLSConf sys ca sni w = (Proc.ret conf, w1) →
      conf.MinVersion = versionTLS12 ∧
        conf.CipherSuites = [tlsEcdheEcdsaWithAes128GcmSha256]) ∧
    (∀ (sni : String) (w w1 : World) (conf : TLSConfig),
      newClientTLSConf sys ca sni w = (Proc.ret conf, w1) →
      conf.MinVersion = versionTLS12 ∧
        conf.CipherSuites = [tlsEcdheEcdsaWithAes128GcmSha256]) ∧
    (∀ (w w2 : World) (cb : String → Option TLSConfig × Option String),
      getGRPCTLS sys ca w = (Proc.ret cb, w2) →
      ∀ (name : String) (conf : TLSConfig) (err : Option String),
        cb name = (some conf, err) →
        conf.MinVersion = versionTLS12 ∧
          conf.CipherSuites = [tlsEcdheEcdsaWithAes128GcmSha256] ∧
          conf.NextProtos = ["h2"]) := by
  refine ⟨fun sni w w1 conf h => newTLSConf_ret sys ca sni w w1 conf h,
    fun sni w w1 conf h => newClientTLSConf_ret sys ca sni w w1 conf h, ?_⟩
  intro w w2 cb h name conf err hn
  obtain ⟨conf1, conf2, w1, h1, h2, rfl⟩ := getGRPCTLS_ret sys ca w w2 cb h
  have p1 := newTLSConf_ret sys ca _ _ _ _ h1
  have p2 := newTLSConf_ret sys ca _ _ _ _ h2
  unfold grpcConfigForClient at hn
  split_ifs at hn with ha hb
  · simp only [Prod.mk.injEq, Option.some.injEq] at hn
    rw [← hn.1]
    exact ⟨p1.1, p1.2, rfl⟩
  · simp only [Prod.mk.injEq, Option.some.injEq] at hn
    rw [← hn.1]
    exact ⟨p2.1, p2.2, rfl⟩
  · simp at hn

/-- Witness of C16: the configuration of the concrete system for the enrollment
server name. -/
theorem c16_tls_parameters_witness :
    ∀ (conf : TLSConfig) (err : Option String),
      fixtureCallback grpcEnrollmentSNI = (some conf, err) →
      conf.MinVersion = versionTLS12 ∧
        conf.CipherSuites = [tlsEcdheEcdsaWithAes128GcmSha256] ∧
        conf.NextProtos = ["h2"] :=
  fun conf err hn =>
    (c16_tls_parameters fixtureSys fixtureRootCA).2.2 initializedWorld
      (initializedWorld.advance 8) fixtureCallback rfl grpcEnrollmentSNI conf err hn

/-- C17: `setupOrchestrator` returns an error if and only if the flag is none of
`native`, `kubernetes`, `kubernetes-ovn`, or it is `kubernetes` or
`kubernetes-ovn` and `Ping` fails. The error is `Invalid orchestration mode `
followed by the flag in the first case and the error of `Ping` in the second;
without an error the mode is `Native`, `Kubernetes` or `KubernetesOVN` for the
three flags in this order; and `main` ends with `os.Exit(1)` whenever
`setupOrchestrator` returns an error. -/
theorem c17_setupOrchestrator (zeroMode : OrchestrationMode) (pingErr : Option String)
    (orchMode : String) :
    ((setupOrchestrator zeroMode pingErr orchMode).2 ≠ none ↔
      ((orchMode ≠ "native" ∧ orchMode ≠ "kubernetes" ∧ orchMode ≠ "kubernetes-ovn") ∨
        ((orchMode = "kubernetes" ∨ orchMode = "kubernetes-ovn") ∧ pingErr ≠ none))) ∧
    (orchMode ≠ "native" → orchMode ≠ "kubernetes" → orchMode ≠ "kubernetes-ovn" →
      (setupOrchestrator zeroMode pingErr orchMode).2 =
        some ("Invalid orchestration mode " ++ orchMode)) ∧
    (orchMode = "kubernetes" ∨ orchMode = "kubernetes-ovn" →
      (setupOrchestrator zeroMode pingErr orchMode).2 = pingErr) ∧
    ((setupOrchestrator zeroMode pingErr orchMode).2 = none →
      (orchMode = "native" ∧
          (setupOrchestrator zeroMode pingErr orchMode).1 = OrchestrationMode.Native) ∨
        (orchMode = "kubernetes" ∧
          (setupOrchestrator zeroMode pingErr orchMode).1 = OrchestrationMode.Kubernetes) ∨
        (orchMode = "kubernetes-ovn" ∧
          (setupOrchestrator zeroMode pingErr orchMode).1 =
            OrchestrationMode.KubernetesOVN)) ∧
    (∀ (flags : Flags) (parseLevelErr : String → Option String)
        (rest : OrchestrationMode → Proc Unit),
      flags.orchMode = orchMode →
      (setupOrchestrator zeroMode pingErr orchMode).2 ≠ none →
      main flags parseLevelErr zeroMode pingErr rest = Proc.exit 1) := by
  refine ⟨?_, ?_, ?_, ?_, ?_⟩
  · unfold setupOrchestrator
    by_cases h1 : orchMode = "native"
    · subst h1
      simp
    · by_cases h2 : orchMode = "kubernetes"
      · subst h2
        simp
      · by_cases h3 : orchMode = "kubernetes-ovn"
        · subst h3
          simp
        · simp [h1, h2, h3]
  · intro h1 h2 h3
    unfold setupOrchestrator
    rw [if_neg h1, if_neg h2, if_neg h3]
  · intro h
    unfold setupOrchestrator
    rcases h with h | h
    · subst h
      rw [if_neg (by decide), if_pos rfl]
    · subst h
      rw [if_neg (by decide), if_neg (by decide), if_pos rfl]
  · intro h
    unfold setupOrchestrator at h ⊢
    by_cases h1 : orchMode = "native"
    · exact Or.inl ⟨h1, by rw [if_pos h1]⟩
    · by_cases h2 : orchMode = "kubernetes"
      · exact Or.inr (Or.inl ⟨h2, by rw [if_neg h1, if_pos h2]⟩)
      · by_cases h3 : orchMode = "kubernetes-ovn"
        · exact Or.inr (Or.inr ⟨h3, by rw [if_neg h1, if_neg h2, if_pos h3]⟩)
        · rw [if_neg h1, if_neg h2, if_neg h3] at h
          simp at h
  · intro flags parseLevelErr rest hf herr
    unfold main
    split_ifs with ha
    · rfl
    · cases parseLevelErr flags.logLevel with
      | some e => rfl
      | none =>
        dsimp only
        rw [hf]
        rcases hs : setupOrchestrator zeroMode pingErr orchMode with ⟨m, e⟩
        rw [hs] at herr
        cases e with
        | none => exact absurd rfl herr
        | some e => rfl

/-- Witness of C17: the flag `docker`, which is not a mode. -/
theorem c17_setupOrchestrator_witness :
    (setupOrchestrator OrchestrationMode.Native none "docker").2 =
        some "Invalid orchestration mode docker" ∧
      main { adminPass := "secret", logLevel := "info", orchMode := "docker" }
          (fun _ => none) OrchestrationMode.Native none (fun _ => Proc.ret ()) =
        Proc.exit 1 :=
  ⟨(c17_setupOrchestrator OrchestrationMode.Native none "docker").2.1
      (by decide) (by decide) (by decide),
    (c17_setupOrchestrator OrchestrationMode.Native none "docker").2.2.2.2
      { adminPass := "secret", logLevel := "info", orchMode := "docker" }
      (fun _ => none) (fun _ => Proc.ret ()) rfl (by decide)⟩

/-- C18: two levels of calls are always enough for `InitRootCA`: with room for
the call and one call of itself it returns, and more room does not change what
it returns. A call that finds the key of a signer in the key file and no
certificate, as the call that follows the removal of a certificate does, makes
the certificate from that key and returns without calling itself. The
certificates of `x509` are taken to carry the key they were made for. -/
theorem c18_initRootCA_one_retry (sys : Sys) (hx : X509Consistent sys) (w : World) :
    (∃ r, ∀ n : Nat, InitRootCA sys (n + 2) w = some r) ∧
    (∀ (pub : PublicKey) (b : Bytes), w.keyFile = some (PrivateKey.signer pub) →
      w.certFile = none → sys.marshalPKIXPublicKey pub = Except.ok b →
      ∃ r, ∀ n : Nat, InitRootCA sys (n + 1) w = some r) :=
  ⟨InitRootCA_two_levels sys hx w,
    fun pub b hk hc hm => InitRootCA_reentered sys hx w pub b hk hc hm⟩

/-- Witness of C18: for a directory whose certificate was made for another key,
one level is not enough and two are; the call returns the authority with a
certificate for the stored key. -/
theorem c18_initRootCA_one_retry_witness :
    X509Consistent fixtureSys ∧ InitRootCA fixtureSys 1 mismatchedWorld = none ∧
      InitRootCA fixtureSys 2 mismatchedWorld =
        some (Proc.ret (some fixtureRootCA, none), initializedWorld) ∧
      ∃ r, ∀ n : Nat, InitRootCA fixtureSys (n + 2) mismatchedWorld = some r :=
  ⟨fixtureSys_consistent, rfl, rfl,
    (c18_initRootCA_one_retry fixtureSys fixtureSys_consistent mismatchedWorld).1⟩

/-- C19: when `InitRootCA` returns an authority and no error, its key is the key
of a signer and the `RawSubjectPublicKeyInfo` of its certificate is the PKIX
encoding of the public half of that key; a certificate in the certificate file
that does not match the key in the key file is not the one returned. -/
theorem c19_returned_cert_matches_key (sys : Sys) (fuel : Nat) (w w2 : World)
    (ca : RootCA) (h : InitRootCA sys fuel w = some (Proc.ret (some ca, none), w2)) :
    (∃ (pub : PublicKey) (c : Certificate), ca.Key = PrivateKey.signer pub ∧
      ca.Cert = some c ∧
      sys.marshalPKIXPublicKey pub = Except.ok c.RawSubjectPublicKeyInfo) ∧
    (∀ (k : PrivateKey) (c0 : Certificate), w.keyFile = some k → w.certFile = some c0 →
      (∀ pub, k = PrivateKey.signer pub →
        sys.marshalPKIXPublicKey pub ≠ Except.ok c0.RawSubjectPublicKeyInfo) →
      ca.Cert ≠ some c0) := by
  obtain ⟨⟨pub, c, hkey, hcert, hm⟩, hk⟩ := InitRootCA_returned sys fuel w w2 ca none h
  refine ⟨⟨pub, c, hkey, hcert, hm⟩, ?_⟩
  intro k c0 hkf _ hmis hc0
  rw [hcert] at hc0
  have hcc : c = c0 := Option.some.inj hc0
  subst hcc
  exact hmis pub ((hk k hkf).symm.trans hkey) hm

/-- Witness of C19: the authority returned for `mismatchedWorld` does not carry
the stored certificate. -/
theorem c19_returned_cert_matches_key_witness :
    fixtureRootCA.Cert ≠ mismatchedWorld.certFile :=
  (c19_returned_cert_matches_key fixtureSys 2 mismatchedWorld initializedWorld
    fixtureRootCA rfl).2 (PrivateKey.signer { id := 7 })
    { Raw := [8], RawSubjectPublicKeyInfo := [8] } rfl rfl
    (fun pub hp hm => by
      cases hp
      simp [fixtureSys] at hm)

/-- C20: `RootCA.CAChain` returns no error and the chain of exactly one
certificate, the certificate of the authority; so the index
`len(tlsCAChain)-1` is in bounds and selects that certificate, `newTLSConf` and
`newClientTLSConf` do not panic for an authority that has a certificate, and
the pool of a configuration they return holds that certificate alone. -/
theorem c20_caChain_single (sys : Sys) (ca : RootCA) (sni : String) (w : World) :
    RootCA.CAChain ca = ([ca.Cert], none) ∧
    (RootCA.CAChain ca).1[(RootCA.CAChain ca).1.length - 1]? = some ca.Cert ∧
    (∀ c : Certificate, ca.Cert = some c →
      ((newTLSConf sys ca sni w).1 = Proc.exit 1 ∨
        ∃ conf, (newTLSConf sys ca sni w).1 = Proc.ret conf ∧
          conf.ClientCAs = some [c]) ∧
      ((newClientTLSConf sys ca sni w).1 = Proc.exit 1 ∨
        ∃ conf, (newClientTLSConf sys ca sni w).1 = Proc.ret conf ∧
          conf.RootCAs = some [c])) := by
  refine ⟨rfl, rfl, fun c hc => ⟨?_, ?_⟩⟩
  · rcases newTLSConf_cases sys ca c sni w hc with h | ⟨cert, h⟩
    · exact Or.inl h
    · exact Or.inr ⟨_, h, rfl⟩
  · rcases newClientTLSConf_cases sys ca c sni w hc with h | ⟨cert, h⟩
    · exact Or.inl h
    · exact Or.inr ⟨_, h, rfl⟩

/-- Witness of C20: the server configuration of the concrete system trusts the
certificate of the authority alone. -/
theorem c20_caChain_single_witness :
    (newTLSConf fixtureSys fixtureRootCA grpcSNI initializedWorld).1 = Proc.exit 1 ∨
      ∃ conf, (newTLSConf fixtureSys fixtureRootCA grpcSNI initializedWorld).1 =
          Proc.ret conf ∧
        conf.ClientCAs = some [{ Raw := [7], RawSubjectPublicKeyInfo := [7] }] :=
  ((c20_caChain_single fixtureSys fixtureRootCA grpcSNI initializedWorld).2.2
    { Raw := [7], RawSubjectPublicKeyInfo := [7] } rfl).1

/-- C21: for a request that parses, a caller's template and an authority with a
certificate, `SignCSR` returns what `x509.CreateCertificate` and
`x509.ParseCertificate` give for a template whose `Subject` is the `Subject` of
the caller's template and whose `NotAfter` is the `NotAfter` of the certificate
of the authority, with that certificate as parent, the public key of the request
and the key of the authority; a request that does not parse gets no certificate
and the error `unable to parse CSR`, wrapped around the parser's error. -/
theorem c21_signCSR_template (sys : Sys)
    (parseCertificateRequest : Bytes → Except String CertificateRequest) (ca : RootCA)
    (der : Bytes) (template : Certificate) (w : World) :
    (∀ (csr : CertificateRequest) (caCert : Certificate),
      parseCertificateRequest der = Except.ok csr → ca.Cert = some caCert →
      ∃ tmpl : Certificate, tmpl.Subject = template.Subject ∧
        tmpl.NotAfter = caCert.NotAfter ∧
        (RootCA.SignCSR sys parseCertificateRequest ca der (some template) w).1 =
          signTemplate sys (w.tick + 2) tmpl caCert csr.PublicKey ca.Key) ∧
    (∀ e : String, parseCertificateRequest der = Except.error e →
      (RootCA.SignCSR sys parseCertificateRequest ca der (some template) w).1 =
        Proc.ret (none, some ("unable to parse CSR" ++ ": " ++ e))) := by
  constructor
  · intro csr caCert hp hc
    refine ⟨signCSRTemplate sys w.tick template caCert, rfl, rfl, ?_⟩
    simp only [RootCA.SignCSR, hp, hc]
  · intro e hp
    simp only [RootCA.SignCSR, hp, wrap]

/-- Witness of C21: a request for the key number 5 and one that does not parse,
in the concrete system. -/
theorem c21_signCSR_template_witness :
    (RootCA.SignCSR fixtureSys fixtureParseCSR fixtureRootCA [5]
        (some { Subject := { CommonName := "node-1" } }) initializedWorld).1 =
      Proc.ret (some { Raw := [5], RawSubjectPublicKeyInfo := [5] }, none) ∧
    (RootCA.SignCSR fixtureSys fixtureParseCSR fixtureRootCA []
        (some { Subject := { CommonName := "node-1" } }) initializedWorld).1 =
      Proc.ret (none, some ("unable to parse CSR" ++ ": " ++
        "asn1: syntax error: sequence truncated")) :=
  ⟨rfl, (c21_signCSR_template fixtureSys fixtureParseCSR fixtureRootCA []
    { Subject := { CommonName := "node-1" } } initializedWorld).2 _ rfl⟩

/-- C22: for the key of a signer, a server name and an authority with a
certificate, `NewTLSServerCert` returns what `x509` gives for a template with
the server name as `CommonName`, `KeyUsage` `DigitalSignature`, `ExtKeyUsage`
`[ServerAuth]` and the `NotAfter` of the certificate of the authority, and
`NewTLSClientCert` does so for the same template with `ExtKeyUsage`
`[ClientAuth]`; a key that is not a signer gets no certificate and the error
`invalid private key type: ` followed by the type of the key. -/
theorem c22_tls_cert_templates (sys : Sys) (ca : RootCA) (sni : String) (w : World) :
    (∀ (pub : PublicKey) (caCert : Certificate), ca.Cert = some caCert →
      ∃ tmpl : Certificate, tmpl.Subject.CommonName = sni ∧
        tmpl.KeyUsage = keyUsageDigitalSignature ∧
        tmpl.ExtKeyUsage = [ExtKeyUsage.serverAuth] ∧
        tmpl.NotAfter = caCert.NotAfter ∧
        (RootCA.NewTLSServerCert sys ca (PrivateKey.signer pub) sni w).1 =
          signTemplate sys (w.tick + 2) tmpl caCert pub ca.Key ∧
        (RootCA.NewTLSClientCert sys ca (PrivateKey.signer pub) sni w).1 =
          signTemplate sys (w.tick + 2)
            { tmpl with ExtKeyUsage := [ExtKeyUsage.clientAuth] } caCert pub ca.Key) ∧
    (∀ goType : String,
      (RootCA.NewTLSServerCert sys ca (PrivateKey.other goType) sni w).1 =
          Proc.ret (none, some ("invalid private key type: " ++ goType)) ∧
        (RootCA.NewTLSClientCert sys ca (PrivateKey.other goType) sni w).1 =
          Proc.ret (none, some ("invalid private key type: " ++ goType))) := by
  constructor
  · intro pub caCert hc
    exact ⟨tlsCertTemplate sys w.tick caCert sni [ExtKeyUsage.serverAuth], rfl, rfl, rfl, rfl,
      newTLSCert_signTemplate sys ca caCert pub sni _ w hc,
      newTLSCert_signTemplate sys ca caCert pub sni _ w hc⟩
  · intro goType
    exact ⟨rfl, rfl⟩

/-- Witness of C22: a server certificate for the key number 3 in the concrete
system. -/
theorem c22_tls_cert_templates_witness :
    ∃ tmpl : Certificate, tmpl.Subject.CommonName = "controller.openness" ∧
      tmpl.ExtKeyUsage = [ExtKeyUsage.serverAuth] ∧
      (RootCA.NewTLSServerCert fixtureSys fixtureRootCA (PrivateKey.signer { id := 3 })
          "controller.openness" initializedWorld).1 =
        signTemplate fixtureSys (initializedWorld.tick + 2) tmpl
          { Raw := [7], RawSubjectPublicKeyInfo := [7] } { id := 3 } fixtureRootCA.Key :=
  match (c22_tls_cert_templates fixtureSys fixtureRootCA "controller.openness"
      initializedWorld).1 { id := 3 } { Raw := [7], RawSubjectPublicKeyInfo := [7] } rfl with
  | ⟨tmpl, h1, _, h3, _, h5, _⟩ => ⟨tmpl, h1, h3, h5⟩

/-- C23: for a key that is not a `crypto.Signer`, `generateRootCA` returns a nil
certificate together with a nil error, because it wraps an error variable that
is still nil; `InitRootCA` then goes on to `StoreCertificate` with the nil
certificate. -/
theorem c23_generateRootCA_nil_nil (sys : Sys) (goType : String) (w : World) :
    generateRootCA sys (PrivateKey.other goType) w = ((none, none), w) ∧
    (loadOrCreateCert sys (PrivateKey.other goType) { w with certFile := none }).1 =
      (match sys.storeCertificate w.tick none with
        | StoreOutcome.panicked => Proc.panic
        | StoreOutcome.failed e =>
          Proc.ret (Except.error ("unable to store CA certificate" ++ ": " ++ e))
        | StoreOutcome.stored => Proc.ret (Except.ok none)) := by
  constructor
  · rfl
  · simp only [loadOrCreateCert, generateRootCA, wrap]
    cases sys.storeCertificate w.tick none <;> rfl

/-- C24: each of `Start`, `Stop`, `Restart` and `GetStatus` returns a nil error
exactly when the RPC returns a nil error; otherwise the text of the returned
error is the fixed text of the operation, `: ` and the text of the error of the
RPC, and its cause is the cause of that error, which is that error itself when
it has no cause of its own, as a gRPC status error has none. -/
theorem c24_lifecycle_errors {pbStatus status : Type} (c : PBLifecycleClient pbStatus)
    (unknown : status) (fromPBLifecycleStatus : pbStatus → status) (id : String) :
    ((ApplicationLifecycleServiceClient.Start c id = none ↔
        c.Start { Id := id, Cmd := LifecycleCommandType.START } = none) ∧
      ∀ e, c.Start { Id := id, Cmd := LifecycleCommandType.START } = some e →
        ∃ r, ApplicationLifecycleServiceClient.Start c id = some r ∧
          r.Error = "error starting application" ++ ": " ++ e.Error ∧
          r.Cause = e.Cause ∧ (∀ m, e = GoError.plain m → r.Cause = e)) ∧
    ((ApplicationLifecycleServiceClient.Stop c id = none ↔
        c.Stop { Id := id, Cmd := LifecycleCommandType.STOP } = none) ∧
      ∀ e, c.Stop { Id := id, Cmd := LifecycleCommandType.STOP } = some e →
        ∃ r, ApplicationLifecycleServiceClient.Stop c id = some r ∧
          r.Error = "error stopping application" ++ ": " ++ e.Error ∧
          r.Cause = e.Cause ∧ (∀ m, e = GoError.plain m → r.Cause = e)) ∧
    ((ApplicationLifecycleServiceClient.Restart c id = none ↔
        c.Restart { Id := id, Cmd := LifecycleCommandType.RESTART } = none) ∧
      ∀ e, c.Restart { Id := id, Cmd := LifecycleCommandType.RESTART } = some e →
        ∃ r, ApplicationLifecycleServiceClient.Restart c id = some r ∧
          r.Error = "error restarting application" ++ ": " ++ e.Error ∧
          r.Cause = e.Cause ∧ (∀ m, e = GoError.plain m → r.Cause = e)) ∧
    (((ApplicationLifecycleServiceClient.GetStatus c unknown fromPBLifecycleStatus id).2 =
          none ↔ (c.GetStatus id).2 = none) ∧
      ∀ e, (c.GetStatus id).2 = some e →
        ∃ r, (ApplicationLifecycleServiceClient.GetStatus c unknown fromPBLifecycleStatus
            id).2 = some r ∧
          r.Error = "error retrieving application" ++ ": " ++ e.Error ∧
          r.Cause = e.Cause ∧ (∀ m, e = GoError.plain m → r.Cause = e)) := by
  refine ⟨⟨?_, ?_⟩, ⟨?_, ?_⟩, ⟨?_, ?_⟩, ⟨?_, ?_⟩⟩
  · unfold ApplicationLifecycleServiceClient.Start
    cases c.Start { Id := id, Cmd := LifecycleCommandType.START } <;> simp [errorsWrap]
  · intro e he
    unfold ApplicationLifecycleServiceClient.Start
    rw [he]
    exact errorsWrap_some e _
  · unfold ApplicationLifecycleServiceClient.Stop
    cases c.Stop { Id := id, Cmd := LifecycleCommandType.STOP } <;> simp [errorsWrap]
  · intro e he
    unfold ApplicationLifecycleServiceClient.Stop
    rw [he]
    exact errorsWrap_some e _
  · unfold ApplicationLifecycleServiceClient.Restart
    cases c.Restart { Id := id, Cmd := LifecycleCommandType.RESTART } <;> simp [errorsWrap]
  · intro e he
    unfold ApplicationLifecycleServiceClient.Restart
    rw [he]
    exact errorsWrap_some e _
  · unfold ApplicationLifecycleServiceClient.GetStatus
    rcases c.GetStatus id with ⟨st, _ | e⟩ <;> simp [errorsWrap]
  · intro e he
    unfold ApplicationLifecycleServiceClient.GetStatus
    rcases hg : c.GetStatus id with ⟨st, err⟩
    rw [hg] at he
    simp only at he
    subst he
    exact errorsWrap_some e _

/-- Witness of C24: `GetStatus` for an application that does not exist, as in
the test suite. -/
theorem c24_lifecycle_errors_witness :
    ∃ r, (ApplicationLifecycleServiceClient.GetStatus notFoundClient 99 (fun n => n)
        "2d0f9d4e").2 = some r ∧
      r.Error = "error retrieving application" ++ ": " ++
        "rpc error: code = NotFound desc = Application not found" ∧
      r.Cause = GoError.plain "rpc error: code = NotFound desc = Application not found" :=
  match (c24_lifecycle_errors notFoundClient 99 (fun n => n) "2d0f9d4e").2.2.2.2
      (GoError.plain "rpc error: code = NotFound desc = Application not found") rfl with
  | ⟨r, h1, h2, h3, _⟩ => ⟨r, h1, h2, h3⟩

/-- C25: for an IP filter that is not nil, `toPBIPFilter` returns a message
whose `Protocol` is the empty string when the filter's protocol is `all` and the
filter's protocol otherwise, and whose `Address` is the filter's address; a nil
filter is converted to nil. -/
theorem c25_toPBIPFilter_protocol (f : IPFilter) :
    (∃ pb, toPBIPFilter (some f) = some pb ∧ pb.Address = f.Address ∧
      (f.Protocol = "all" → pb.Protocol = "") ∧
      (f.Protocol ≠ "all" → pb.Protocol = f.Protocol)) ∧
    toPBIPFilter none = none := by
  refine ⟨⟨_, rfl, rfl, ?_, ?_⟩, rfl⟩
  · intro h
    simp [h]
  · intro h
    simp [h]

/-- Witness of C25: the fixture's IP filter with the protocol `all`. -/
theorem c25_toPBIPFilter_protocol_witness :
    ∃ pb, toPBIPFilter (some fixtureAllIPFilter) = some pb ∧ pb.Protocol = "" :=
  match (c25_toPBIPFilter_protocol fixtureAllIPFilter).1 with
  | ⟨pb, h1, _, h3, _⟩ => ⟨pb, h1, h3 rfl⟩

/-- C26: the conversion of traffic rules to protobuf loses nothing on valid
rules: two rules that both pass `TrafficRule.Validate` and have the same
conversion are equal. -/
theorem c26_toPBTrafficRule_injective (env : Env) (r1 r2 : TrafficRule)
    (h1 : TrafficRule.Validate env r1 = none) (h2 : TrafficRule.Validate env r2 = none)
    (h : toPBTrafficRule (some r1) = toPBTrafficRule (some r2)) : r1 = r2 := by
  obtain ⟨p1, s1, d1⟩ := trafficRule_valid_parts env r1 h1
  obtain ⟨p2, s2, d2⟩ := trafficRule_valid_parts env r2 h2
  obtain ⟨t1, ht1, hv1⟩ := trafficRule_valid_target env r1 h1
  obtain ⟨t2, ht2, hv2⟩ := trafficRule_valid_target env r2 h2
  obtain ⟨a1, ha1⟩ := toPBTargetAction_valid t1.Action (trafficTarget_valid_action env t1 hv1)
  obtain ⟨a2, ha2⟩ := toPBTargetAction_valid t2.Action (trafficTarget_valid_action env t2 hv2)
  have hpb1 : toPBTrafficTarget (some t1) = Run.ret (some
      { Description := t1.Description, Action := a1, Mac := toPBMACModifier t1.MAC,
        Ip := toPBIPModifier t1.IP }) := by
    simp only [toPBTrafficTarget, ha1]
  have hpb2 : toPBTrafficTarget (some t2) = Run.ret (some
      { Description := t2.Description, Action := a2, Mac := toPBMACModifier t2.MAC,
        Ip := toPBIPModifier t2.IP }) := by
    simp only [toPBTrafficTarget, ha2]
  simp only [toPBTrafficRule, ht1, ht2, hpb1, hpb2, Run.ret.injEq,
    PBTrafficRule.mk.injEq] at h
  obtain ⟨e1, e2, e3, e4, e5⟩ := h
  have f2 := toUint32_inj _ _ (by omega) (by omega) (by omega) (by omega) e2
  have f3 := toPBTrafficSelector_opt_inj env _ _ s1 s2 e3
  have f4 := toPBTrafficSelector_opt_inj env _ _ d1 d2 e4
  have f5 : t1 = t2 := by
    apply toPBTrafficTarget_inj env t1 t2 hv1 hv2
    rw [hpb1, hpb2, e5]
  cases r1
  cases r2
  simp only at e1 f2 f3 f4 ht1 ht2
  subst e1 f2 f3 f4 f5
  rw [ht1, ht2]

/-- Witness of C26: the fixture's first rule and its variant with the protocol
`all` are both valid and differ, and so do their conversions. -/
theorem c26_toPBTrafficRule_injective_witness :
    toPBTrafficRule (some fixtureRule) ≠ toPBTrafficRule (some fixtureAllRule) :=
  fun h => absurd (c26_toPBTrafficRule_injective fixtureEnv fixtureRule fixtureAllRule
    (by rfl) (by rfl) h) (by decide)

/-- C27, as stated, fails: a request that supplies exactly the ids `if0` to
`if3` known for the node, the first interface with an empty driver, is refused
with status 400 and the message of the field validation, although the set of
ids of the request equals the set of ids known. -/
theorem c27_invalid_driver_counterexample :
    fixtureEmptyDriverRequest.map NetworkInterface.ID =
        fixtureInterfaces.map NetworkInterface.ID ∧
      bulkUpdateInterfaces fixtureInterfaces fixtureEmptyDriverRequest =
        { Status := 400,
          Error := some ("Validation failed: network_interfaces[0].driver " ++
            "must be one of [kernel, userspace]"),
          Interfaces := fixtureInterfaces } := by
  exact ⟨by decide, by rfl⟩

/-- C27, amended: a bulk update of the interfaces of a node succeeds if and
only if every interface of the request passes the field validation and the ids
of the request are the ids known for the node; a request that fails leaves the
interfaces of the node as they were; a request that succeeds is answered 200,
keeps the ids of the node and stores interfaces of the request only; a request
with an interface that fails the validation is answered 400 with
`Validation failed: network_interfaces[j].` and the message of the first such
interface; and when the request passes the validation, every id of the request
is known and the id `i` is the first known id that the request lacks, the
answer is 500 with `error bulk updating network interfaces: rpc error: code =
FailedPrecondition desc = Network Interface i missing from request`. -/
theorem c27_bulk_update_valid_all_or_nothing (known request : List NetworkInterface) :
    ((bulkUpdateInterfaces known request).Error = none ↔
      (∀ r ∈ request, NetworkInterface.Validate r = none) ∧
      ∀ i : String, i ∈ known.map NetworkInterface.ID ↔
        i ∈ request.map NetworkInterface.ID) ∧
    ((bulkUpdateInterfaces known request).Error ≠ none →
      (bulkUpdateInterfaces known request).Interfaces = known) ∧
    ((bulkUpdateInterfaces known request).Error = none →
      (bulkUpdateInterfaces known request).Status = 200 ∧
      (bulkUpdateInterfaces known request).Interfaces.map NetworkInterface.ID =
        known.map NetworkInterface.ID ∧
      ∀ x ∈ (bulkUpdateInterfaces known request).Interfaces, x ∈ request) ∧
    ((¬ ∀ r ∈ request, NetworkInterface.Validate r = none) →
      (bulkUpdateInterfaces known request).Status = 400 ∧
      ∃ (j : Nat) (r : NetworkInterface) (e : String),
        request[j]? = some r ∧ NetworkInterface.Validate r = some e ∧
        (∀ r2 ∈ request.take j, NetworkInterface.Validate r2 = none) ∧
        (bulkUpdateInterfaces known request).Error =
          some ("Validation failed: network_interfaces[" ++ toString j ++ "]." ++ e)) ∧
    (∀ k : NetworkInterface,
      (∀ r ∈ request, NetworkInterface.Validate r = none) →
      (∀ r ∈ request, r.ID ∈ known.map NetworkInterface.ID) →
      known.find? (fun k => !hasInterface request k.ID) = some k →
      (bulkUpdateInterfaces known request).Status = 500 ∧
      (bulkUpdateInterfaces known request).Error =
        some ("error bulk updating network interfaces: " ++
          "rpc error: code = FailedPrecondition desc = " ++
          "Network Interface " ++ k.ID ++ " missing from request")) := by
  unfold bulkUpdateInterfaces
  cases h0 : validateInterfaces request 0 with
  | some msg =>
    have hinv : ¬ ∀ r ∈ request, NetworkInterface.Validate r = none := by
      intro hall
      rw [(validateInterfaces_none request 0).mpr hall] at h0
      exact Option.noConfusion h0
    obtain ⟨j, r, e, hj, hv, hmsg, hbefore⟩ := validateInterfaces_some request 0 msg h0
    rw [Nat.zero_add] at hmsg
    refine ⟨⟨fun h => (by simp at h), fun h => absurd h.1 hinv⟩, fun _ => rfl,
      fun h => (by simp at h), fun _ => ⟨rfl, j, r, e, hj, hv, hbefore, ?_⟩, ?_⟩
    · rw [hmsg]
    · intro k hall _ _
      exact absurd hall hinv
  | none =>
    have hval : ∀ r ∈ request, NetworkInterface.Validate r = none :=
      (validateInterfaces_none request 0).mp h0
    cases h1 : request.find? (fun r => !hasInterface known r.ID) with
    | some r =>
      have hr := List.find?_some h1
      have hmem := List.mem_of_find?_eq_some h1
      have hnot : ¬ r.ID ∈ known.map NetworkInterface.ID := by
        rw [← hasInterface_iff]
        simpa using hr
      refine ⟨⟨fun h => (by simp at h), fun h => ?_⟩, fun _ => rfl,
        fun h => (by simp at h), fun h => absurd hval h, ?_⟩
      · exact absurd ((h.2 r.ID).2 (List.mem_map_of_mem _ hmem)) hnot
      · intro k _ hall _
        exact absurd (hall r hmem) hnot
    | none =>
      have hsub : ∀ r ∈ request, r.ID ∈ known.map NetworkInterface.ID := by
        intro r hr
        have := List.find?_eq_none.mp h1 r hr
        rw [← hasInterface_iff]
        simpa using this
      cases h2 : known.find? (fun k => !hasInterface request k.ID) with
      | some k =>
        have hk := List.find?_some h2
        have hmem := List.mem_of_find?_eq_some h2
        have hnot : ¬ k.ID ∈ request.map NetworkInterface.ID := by
          rw [← hasInterface_iff]
          simpa using hk
        refine ⟨⟨fun h => (by simp at h), fun h => ?_⟩, fun _ => rfl,
          fun h => (by simp at h), fun h => absurd hval h, ?_⟩
        · exact absurd ((h.2 k.ID).1 (List.mem_map_of_mem _ hmem)) hnot
        · intro k2 _ _ hk2
          cases hk2
          exact ⟨rfl, rfl⟩
      | none =>
        have hsup : ∀ k ∈ known, k.ID ∈ request.map NetworkInterface.ID := by
          intro k hk
          have := List.find?_eq_none.mp h2 k hk
          rw [← hasInterface_iff]
          simpa using this
        refine ⟨⟨fun _ => ⟨hval, fun i => ⟨fun hi => ?_, fun hi => ?_⟩⟩, fun _ => rfl⟩,
          fun h => absurd rfl h,
          fun _ => ⟨rfl, foldl_replaceInterface_ids request known, ?_⟩,
          fun h => absurd hval h, ?_⟩
        · obtain ⟨k, hk, rfl⟩ := List.mem_map.mp hi
          exact hsup k hk
        · obtain ⟨r, hr, rfl⟩ := List.mem_map.mp hi
          exact hsub r hr
        · intro x hx
          rcases foldl_replaceInterface_mem request known x hx with h | ⟨h, hno⟩
          · exact h
          · obtain ⟨r, hr, hid⟩ := List.mem_map.mp (hsup x h)
            exact absurd hid (hno r hr)
        · intro k _ _ hk
          cases hk

/-- Witness of C27: the node with `if0` to `if3` and the request of the test
suite with `if0` alone, which passes the field validation: the answer is 500
with the missing `if1`, and the interfaces of the node are as they were. -/
theorem c27_bulk_update_valid_all_or_nothing_witness :
    (bulkUpdateInterfaces fixtureInterfaces
        [fixturePatchedInterface "if0" "interface0"]).Status = 500 ∧
    (bulkUpdateInterfaces fixtureInterfaces
        [fixturePatchedInterface "if0" "interface0"]).Error =
      some ("error bulk updating network interfaces: " ++
        "rpc error: code = FailedPrecondition desc = " ++
        "Network Interface " ++ "if1" ++ " missing from request") ∧
    (bulkUpdateInterfaces fixtureInterfaces
        [fixturePatchedInterface "if0" "interface0"]).Interfaces = fixtureInterfaces :=
  have h := c27_bulk_update_valid_all_or_nothing fixtureInterfaces
    [fixturePatchedInterface "if0" "interface0"]
  have h500 := h.2.2.2.2 (fixtureInterface "1" 1) (by decide) (by decide) (by rfl)
  ⟨h500.1, h500.2, h.2.1 (by rw [h500.2]; exact fun e => Option.noConfusion e)⟩

/-- C28: for a generator value with the top bit set the serial number is
negative: for the value `11337923308403272142` each of the three templates gets
the serial number `-7108820765306279474`, and, `x509.CreateCertificate` refusing
a negative serial number, `SignCSR`, `NewTLSServerCert` and `generateRootCA`
return an error and no certificate. -/
theorem c28_negative_serial :
    highSerialSys.randUint64 (highSerialSys.now 0) = 11337923308403272142 ∧
    (signCSRTemplate highSerialSys 0 {} {}).SerialNumber = -7108820765306279474 ∧
    (tlsCertTemplate highSerialSys 0 {} "controller.openness"
      [ExtKeyUsage.serverAuth]).SerialNumber = -7108820765306279474 ∧
    (rootCATemplate highSerialSys 0).SerialNumber = -7108820765306279474 ∧
    (RootCA.SignCSR highSerialSys fixtureParseCSR fixtureRootCA [5] (some {})
        initializedWorld).1 =
      Proc.ret (none, some "unable to sign certificate: x509: serial number must be positive") ∧
    (RootCA.NewTLSServerCert highSerialSys fixtureRootCA (PrivateKey.signer { id := 3 })
        "controller.openness" initializedWorld).1 =
      Proc.ret (none, some "unable to sign certificate: x509: serial number must be positive") ∧
    (generateRootCA highSerialSys (PrivateKey.signer { id := 7 }) initializedWorld).1 =
      (none, some "unable to create CA certificate: x509: serial number must be positive") := by
  refine ⟨by rfl, by rfl, by rfl, by rfl, by rfl, by rfl, by rfl⟩

/-- C29: for a policy that passes `TrafficPolicy.Validate` and any id,
`toPBTrafficPolicy` does not panic; the message it returns has the id as `Id` and
as many `TrafficRules` as the policy has rules, the entry at each index being the
conversion of the rule at that index. -/
theorem c29_toPBTrafficPolicy_total (env : Env) (tp : TrafficPolicy) (id : String)
    (h : TrafficPolicy.Validate env tp = Run.ret none) :
    ∃ pb, toPBTrafficPolicy id (some tp) = Run.ret pb ∧ pb.Id = id ∧
      pb.TrafficRules.length = tp.Rules.length ∧
      ∀ i : Nat, i < tp.Rules.length → ∃ pbRule, pb.TrafficRules[i]? = some (some pbRule) ∧
        toPBTrafficRule (tp.Rules[i]?.getD none) = Run.ret pbRule := by
  obtain ⟨pbs, h1, h2, h3⟩ :=
    toPBTrafficRules_valid env tp.Rules [] (policy_valid_rules env tp h)
  refine ⟨{ Id := id, TrafficRules := pbs }, ?_, rfl, h2, h3⟩
  simp only [toPBTrafficPolicy, h1, List.nil_append]

/-- Witness of C29: the fixture policy is converted without a panic. -/
theorem c29_toPBTrafficPolicy_total_witness :
    ∃ pb, toPBTrafficPolicy "9d740cee-035f-4076-847c-d1c80cdf19db" (some fixturePolicy) =
        Run.ret pb ∧ pb.Id = "9d740cee-035f-4076-847c-d1c80cdf19db" ∧
      pb.TrafficRules.length = 1 :=
  match c29_toPBTrafficPolicy_total fixtureEnv fixturePolicy
      "9d740cee-035f-4076-847c-d1c80cdf19db" (by rfl) with
  | ⟨pb, h1, h2, h3, _⟩ => ⟨pb, h1, h2, h3⟩

/-- C30: a policy with a valid UUID as ID and an empty name gets exactly the
error `name cannot be empty`, whatever its rules are; hence a policy that passes
`Validate` has a name that is not empty. -/
theorem c30_empty_name_rejected (env : Env) (tp : TrafficPolicy) :
    (env.uuidIsValid tp.ID = true → tp.Name = "" →
        TrafficPolicy.Validate env tp = Run.ret (some "name cannot be empty")) ∧
      (TrafficPolicy.Validate env tp = Run.ret none → tp.Name ≠ "") := by
  constructor
  · intro hid hname
    unfold TrafficPolicy.Validate
    rw [if_neg (by simp [hid]), if_pos hname]
  · intro h hname
    unfold TrafficPolicy.Validate at h
    split_ifs at h <;> simp at h

/-- Witness of C30: the fixture policy with an empty name. -/
theorem c30_empty_name_rejected_witness :
    TrafficPolicy.Validate fixtureEnv { fixturePolicy with Name := "" } =
      Run.ret (some "name cannot be empty") :=
  (c30_empty_name_rejected fixtureEnv { fixturePolicy with Name := "" }).1
    (by decide) rfl

end EdgeController
